import Mathlib

/-!
Verification of the FitPilot standing-booking materialization core.

This file gives a shallow embedding, in Lean, of the scheduling /
materialization core of the FitPilot backend:

* `app/crud/standingBookingsCrud.py` (registry, exception store,
  materialization engine),
* `app/crud/classSessionCrud.py` (session expander),
* `app/crud/membershipsCrud.py` (renewal / window orchestrator),

together with theorems settling the testable properties stated in the
specification.

Modelling conventions:

* Calendar dates are integers (`Day`), counted so that day 0 falls on a
  Monday; `d.emod 7` is then exactly Python's `date.weekday()` and
  `d.emod 7 + 1` is `date.isoweekday()`.
* Timestamps are integers (`Minute`), minutes since midnight of day 0;
  `Int.fdiv t 1440` is the timestamp's calendar date (SQL `func.date`,
  Python `.date()`), matching Python's floor division.
* `relativedelta(months=n)` is modelled by exact proleptic-Gregorian
  calendar arithmetic (`addMonths`), clamping the day-of-month.
* Each SQLAlchemy table is a Lean list of rows; the async session is a
  `DB` value threaded through the functions.  `db.add` appends a row and
  assigns the next primary key; `flush`/`refresh` are no-ops in this
  model because keys are assigned immediately.
* A transaction is a pair of `DB` values: the `committed` snapshot and
  the `pending` session state.  `commit` publishes `pending`,
  `rollback` restores `committed`.  Functions that never commit are
  written against `DB` directly and are lifted to the pending state by
  their callers.
* Python exceptions are modelled with `Except String`; SQLAlchemy's
  `scalar_one_or_none` raises when more than one row matches, which the
  model reproduces.  Error message strings are abbreviated; no theorem
  depends on message text.
* Python truthiness on optional integer columns (`if seat_id:`) is
  modelled by `optTruthy`, which is false for `None` and for `0`,
  and `x or d` on optional integers by `natOrElse`.
* Presentational columns (names, notes, creation timestamps other than
  the standing-booking `created_at`, which the renewal path orders by)
  are omitted; `created_at` is modelled by the monotone id counter,
  which preserves the creation order that `ORDER BY created_at DESC`
  relies on.
-/

namespace Fitpilot

/-- Calendar date, as a count of days; day 0 is a Monday. -/
abbrev Day := Int

/-- Timestamp, in minutes since midnight of day 0. -/
abbrev Minute := Int

/-- Python `datetime.weekday()` (Monday = 0) for a `Day`. -/
def pyWeekday (d : Day) : Int := Int.emod d 7

/-- Python `date.isoweekday()` (Monday = 1) for a `Day`. -/
def isoweekday (d : Day) : Int := Int.emod d 7 + 1

/-- Calendar date of a timestamp: Python `.date()` / SQL `func.date`. -/
def dateOf (t : Minute) : Day := Int.fdiv t 1440

/-- Python `datetime.combine(date, time)`: a timestamp from a date and a
time-of-day given in minutes after midnight. -/
def combine (d : Day) (timeLocal : Int) : Minute := d * 1440 + timeLocal

/-- Gregorian leap-year test. -/
def isLeapYear (y : Int) : Bool :=
  (Int.emod y 4 == 0 && Int.emod y 100 != 0) || Int.emod y 400 == 0

/-- Number of days in a Gregorian month. -/
def daysInMonth (y m : Int) : Int :=
  if m == 2 then (if isLeapYear y then 29 else 28)
  else if m == 4 || m == 6 || m == 9 || m == 11 then 30 else 31

/-- Day number of a proleptic-Gregorian civil date (day 0 = 0001-01-01,
a Monday). -/
def daysFromCivil (y m d : Int) : Day :=
  let y' := if m ≤ 2 then y - 1 else y
  let era := Int.fdiv y' 400
  let yoe := y' - era * 400
  let mp := Int.emod (m + 9) 12
  let doy := Int.fdiv (153 * mp + 2) 5 + d - 1
  let doe := yoe * 365 + Int.fdiv yoe 4 - Int.fdiv yoe 100 + doy
  era * 146097 + doe - 719468 + 719162

/-- Civil date (year, month, day) of a day number. -/
def civilFromDays (day : Day) : Int × Int × Int :=
  let z := day - 719162 + 719468
  let era := Int.fdiv z 146097
  let doe := z - era * 146097
  let yoe :=
    Int.fdiv (doe - Int.fdiv doe 1460 + Int.fdiv doe 36524 - Int.fdiv doe 146096) 365
  let y := yoe + era * 400
  let doy := doe - (365 * yoe + Int.fdiv yoe 4 - Int.fdiv yoe 100)
  let mp := Int.fdiv (5 * doy + 2) 153
  let d := doy - Int.fdiv (153 * mp + 2) 5 + 1
  let m := mp + (if mp < 10 then 3 else -9)
  (y + (if m ≤ 2 then 1 else 0), m, d)

/-- `dateutil.relativedelta(months := n)` on a day number: add `n`
calendar months, clamping the day-of-month to the target month. -/
def addMonths (day : Day) (n : Int) : Day :=
  let c := civilFromDays day
  let t := c.1 * 12 + (c.2.1 - 1) + n
  let y2 := Int.fdiv t 12
  let m2 := Int.emod t 12 + 1
  let d2 := min c.2.2 (daysInMonth y2 m2)
  daysFromCivil y2 m2 d2

/-- Python truthiness of an optional integer column: `None` and `0` are
falsy. -/
def optTruthy : Option Nat → Bool
  | some n => n != 0
  | none => false

/-- Python truthiness of an optional string: `None` and `""` are falsy. -/
def strTruthy : Option String → Bool
  | some s => s != ""
  | none => false

/-- Python `x or d` for an optional integer `x`: the default is used when
`x` is `None` or `0`. -/
def natOrElse : Option Nat → Nat → Nat
  | some n, d => if n == 0 then d else n
  | none, d => d

/-- SQLAlchemy `Result.scalar_one_or_none()`: `none` on zero rows, the
row on exactly one, an exception on more than one. -/
def scalarOneOrNone : List α → Except String (Option α)
  | [] => .ok none
  | [a] => .ok (some a)
  | _ => .error "MultipleResultsFound"

/-- SQLAlchemy `Result.scalar_one()`: the row on exactly one match, an
exception otherwise. -/
def scalarOne : List α → Except String α
  | [a] => .ok a
  | [] => .error "NoResultFound"
  | _ => .error "MultipleResultsFound"

/-- Whether an `Except` value is a raised exception. -/
def exceptIsError : Except ε α → Bool
  | .error _ => true
  | .ok _ => false

instance instDecidableEqExcept [DecidableEq ε] [DecidableEq α] :
    DecidableEq (Except ε α) := fun a b =>
  match a, b with
  | .error x, .error y =>
    if h : x = y then .isTrue (by rw [h]) else .isFalse (by simp [h])
  | .ok x, .ok y =>
    if h : x = y then .isTrue (by rw [h]) else .isFalse (by simp [h])
  | .error _, .ok _ => .isFalse (by simp)
  | .ok _, .error _ => .isFalse (by simp)

/-- Stable insertion into a list sorted by an integer key. -/
def insertSortedBy (key : α → Int) (a : α) : List α → List α
  | [] => [a]
  | b :: rest =>
    if key a ≤ key b then a :: b :: rest else b :: insertSortedBy key a rest

/-- Stable sort by an integer key (models SQL `ORDER BY key ASC`). -/
def sortBy (key : α → Int) : List α → List α
  | [] => []
  | a :: rest => insertSortedBy key a (sortBy key rest)

/-- Minimum of a list of days with a default (Python
`min(values, default := d)`). -/
def listMinD (l : List Day) (d : Day) : Day :=
  match l with
  | [] => d
  | a :: rest => min a (listMinD rest a)

/-! ## Data model (`app/models/classModel.py`, `membershipsModel.py`) -/

/-- Row of `class_templates`. -/
structure ClassTemplate where
  id : Nat
  class_type_id : Nat
  venue_id : Nat
  default_capacity : Option Nat
  default_duration_min : Nat
  weekday : Int
  start_time_local : Int
  instructor_id : Option Nat
  is_active : Bool
deriving DecidableEq, Repr

/-- Row of `class_sessions`. -/
structure ClassSession where
  id : Nat
  template_id : Option Nat
  class_type_id : Nat
  venue_id : Nat
  instructor_id : Option Nat
  start_at : Minute
  end_at : Minute
  capacity : Nat
  status : String
deriving DecidableEq, Repr

/-- Row of `reservations`. -/
structure Reservation where
  id : Nat
  session_id : Nat
  person_id : Nat
  seat_id : Option Nat
  status : String
  source : String
deriving DecidableEq, Repr

/-- Row of `standing_bookings`; `created_at` is modelled by the monotone
id counter active at creation time. -/
structure StandingBooking where
  id : Nat
  person_id : Nat
  subscription_id : Nat
  template_id : Nat
  seat_id : Option Nat
  start_date : Day
  end_date : Day
  status : String
  created_at : Nat
deriving DecidableEq, Repr

/-- Row of `standing_booking_exceptions`. -/
structure StandingBookingException where
  standing_booking_id : Nat
  session_date : Day
  action : String
  new_session_id : Option Nat
deriving DecidableEq, Repr

/-- Row of `seats`. -/
structure Seat where
  id : Nat
  venue_id : Nat
  is_active : Bool
deriving DecidableEq, Repr

/-- Row of `membership_plans`.  `standing_window_days` stands for the
duck-typed optional window-override attributes probed by
`_get_plan_window_override` (absent from the deployed schema, hence
`none` in any reachable state). -/
structure MembershipPlan where
  id : Nat
  price : Int
  duration_value : Int
  duration_unit : String
  fixed_time_slot : Bool
  standing_window_days : Option Int
deriving DecidableEq, Repr

/-- Row of `membership_subscriptions`. -/
structure MembershipSubscription where
  id : Nat
  person_id : Nat
  plan_id : Nat
  start_at : Minute
  end_at : Minute
  status : String
deriving DecidableEq, Repr

/-- Row of `payments`. -/
structure Payment where
  id : Nat
  person_id : Nat
  subscription_id : Option Nat
  amount : Int
  method : String
  status : String
deriving DecidableEq, Repr

/-- The relational store: one list per table, plus the id counter that
stands for primary-key assignment (and creation order). -/
structure DB where
  templates : List ClassTemplate
  sessions : List ClassSession
  reservations : List Reservation
  standing_bookings : List StandingBooking
  standing_booking_exceptions : List StandingBookingException
  seats : List Seat
  plans : List MembershipPlan
  subscriptions : List MembershipSubscription
  payments : List Payment
  next_id : Nat
deriving DecidableEq, Repr

/-- A transaction: the committed snapshot and the pending session
state. -/
structure Tx where
  committed : DB
  pending : DB
deriving DecidableEq, Repr

/-- `await db.commit()`: publish the pending state. -/
def Tx.commit (tx : Tx) : Tx := { committed := tx.pending, pending := tx.pending }

/-- `await db.rollback()` (or the enclosing session rolling back on an
escaped exception): discard the pending state. -/
def Tx.rollback (tx : Tx) : Tx := { committed := tx.committed, pending := tx.committed }

/-- A fresh transaction over a committed state. -/
def Tx.start (db : DB) : Tx := { committed := db, pending := db }

/-- The statistics dictionary threaded through materialization
(`materialize_standing_bookings` and friends).  `error_msg` is the
`"error"` key, `standing_booking_ids`, `window_start`, `window_end`,
`weeks_ahead` and `sessions_generated` are the keys attached by
`_handle_fixed_timeslot_effects`.  The derived mirror keys
`materialized_count` / `reservations_created` (always equal to
`created_reservations`) are not duplicated. -/
structure Stats where
  processed_bookings : Nat := 0
  created_reservations : Nat := 0
  skipped_no_capacity : Nat := 0
  skipped_seat_taken : Nat := 0
  skipped_existing : Nat := 0
  skipped_exceptions : Nat := 0
  errors : List String := []
  error_msg : Option String := none
  standing_booking_ids : List Nat := []
  window_start : Option Day := none
  window_end : Option Day := none
  weeks_ahead : Option Nat := none
  sessions_generated : Option Nat := none
deriving DecidableEq, Repr

/-- The empty statistics dictionary. -/
def Stats.empty : Stats := {}

/-- Reservation statuses that hold a slot (`status.in_(['reserved',
'checked_in'])`, the filter the engine's seat and capacity checks use). -/
def isActiveReservationStatus (s : String) : Bool :=
  s == "reserved" || s == "checked_in"

/-! ## Materialization engine (`app/crud/standingBookingsCrud.py`) -/

/-- Reservation rows for a `(session, person)` pair, regardless of
status — the query of the idempotency check in
`_create_reservation_if_possible` (lines 713-719). -/
def reservationsForPair (db : DB) (sessionId personId : Nat) : List Reservation :=
  db.reservations.filter fun r => r.session_id == sessionId && r.person_id == personId

/-- Slot-holding reservation rows on a given seat of a session — the
query of the seat check (lines 737-744). -/
def activeSeatReservations (db : DB) (sessionId : Nat) (seatId : Option Nat) :
    List Reservation :=
  db.reservations.filter fun r =>
    r.session_id == sessionId && r.seat_id == seatId &&
      isActiveReservationStatus r.status

/-- Count of slot-holding reservations on a session — the capacity-check
query (lines 752-759). -/
def activeReservationCount (db : DB) (sessionId : Nat) : Nat :=
  (db.reservations.filter fun r =>
    r.session_id == sessionId && isActiveReservationStatus r.status).length

/-- The reservation row built and added by
`_create_reservation_if_possible` (lines 766-774): status `reserved`,
the standing booking's person and seat, the given source. -/
def insertReservation (db : DB) (standing_booking : StandingBooking)
    (session_id : Nat) (source : String) : DB :=
  let r : Reservation :=
    { id := db.next_id, session_id := session_id,
      person_id := standing_booking.person_id,
      seat_id := standing_booking.seat_id,
      status := "reserved", source := source }
  { db with reservations := db.reservations ++ [r], next_id := db.next_id + 1 }

/-- `_create_reservation_if_possible` (standingBookingsCrud.py lines
703-775): the shared reservation attempt.  Skips (with the matching
counter) on an existing `(session, person)` reservation of any status,
then on a taken seat for seat bookings, or on exhausted capacity for
seatless ones; otherwise appends a `reserved` reservation.  Raises only
through `scalar_one_or_none`. -/
def create_reservation_if_possible (db : DB) (standing_booking : StandingBooking)
    (session_id : Nat) (stats : Stats) (source : String) :
    Except String (DB × Stats) :=
  match scalarOneOrNone (reservationsForPair db session_id standing_booking.person_id) with
  | .error e => .error e
  | .ok (some _) =>
    .ok (db, { stats with skipped_existing := stats.skipped_existing + 1 })
  | .ok none =>
    match scalarOneOrNone (db.sessions.filter fun s => s.id == session_id) with
    | .error e => .error e
    | .ok none => .ok (db, stats)
    | .ok (some session) =>
      if optTruthy standing_booking.seat_id then
        match scalarOneOrNone
          (activeSeatReservations db session_id standing_booking.seat_id) with
        | .error e => .error e
        | .ok (some _) =>
          .ok (db, { stats with skipped_seat_taken := stats.skipped_seat_taken + 1 })
        | .ok none =>
          .ok (insertReservation db standing_booking session_id source,
               { stats with created_reservations := stats.created_reservations + 1 })
      else
        if activeReservationCount db session_id ≥ session.capacity then
          .ok (db, { stats with skipped_no_capacity := stats.skipped_no_capacity + 1 })
        else
          .ok (insertReservation db standing_booking session_id source,
               { stats with created_reservations := stats.created_reservations + 1 })

/-- The exception applying to a standing booking on a given date: the
dictionary `{exc.session_date: exc for exc in result}` keyed by date
keeps the last matching row in query order. -/
def exceptionFor (db : DB) (standingBookingId : Nat) (d : Day) :
    Option StandingBookingException :=
  (db.standing_booking_exceptions.filter fun e =>
    e.standing_booking_id == standingBookingId && e.session_date == d).getLast?

/-- Scheduled sessions of a template whose date lies in a closed date
range, ordered by `start_at` — the session query of
`_materialize_single_standing_booking` (lines 670-680). -/
def scheduledSessionsInRange (db : DB) (templateId : Nat) (lo hi : Day) :
    List ClassSession :=
  sortBy (fun s => s.start_at)
    (db.sessions.filter fun s =>
      s.template_id == some templateId && dateOf s.start_at ≥ lo &&
        dateOf s.start_at ≤ hi && s.status == "scheduled")

/-- The per-session loop of `_materialize_single_standing_booking`
(lines 682-700).  A raised exception leaves the counters and rows
mutated so far in place and is reported to the caller (the enclosing
try/except of the windowed pass). -/
def materializeSessionList (sb : StandingBooking) :
    DB → Stats → List ClassSession → DB × Stats × Option String
  | db, stats, [] => (db, stats, none)
  | db, stats, session :: rest =>
    let d := dateOf session.start_at
    match exceptionFor db sb.id d with
    | some exc =>
      let stats := { stats with skipped_exceptions := stats.skipped_exceptions + 1 }
      if exc.action == "reschedule" && optTruthy exc.new_session_id then
        match exc.new_session_id with
        | some nsid =>
          match create_reservation_if_possible db sb nsid stats "override" with
          | .ok (db', stats') => materializeSessionList sb db' stats' rest
          | .error e => (db, stats, some e)
        | none => materializeSessionList sb db stats rest
      else
        materializeSessionList sb db stats rest
    | none =>
      match create_reservation_if_possible db sb session.id stats "standing" with
      | .ok (db', stats') => materializeSessionList sb db' stats' rest
      | .error e => (db, stats, some e)

/-- `_materialize_single_standing_booking` (lines 648-700): materialize
one standing booking over the window intersected with its own validity
range.  Returns the (possibly partially) mutated state together with the
message of a raised exception, if any. -/
def materialize_single_standing_booking (db : DB) (standing_booking : StandingBooking)
    (start_date end_date : Day) (stats : Stats) : DB × Stats × Option String :=
  match db.templates.find? fun t => t.id == standing_booking.template_id with
  | none => (db, stats, none)
  | some template =>
    if !template.is_active then (db, stats, none)
    else
      let sessions := scheduledSessionsInRange db template.id
        (max start_date standing_booking.start_date)
        (min end_date standing_booking.end_date)
      materializeSessionList standing_booking db stats sessions

/-- The per-booking loop of `materialize_standing_bookings` (lines
568-576): one booking's failure is recorded and processing continues. -/
def materializeBookingList (start_date end_date : Day) :
    DB → Stats → List StandingBooking → DB × Stats
  | db, stats, [] => (db, stats)
  | db, stats, sb :: rest =>
    let stats := { stats with processed_bookings := stats.processed_bookings + 1 }
    let (db', stats', err?) :=
      materialize_single_standing_booking db sb start_date end_date stats
    let stats'' :=
      match err? with
      | some e => { stats' with errors := stats'.errors ++ [e] }
      | none => stats'
    materializeBookingList start_date end_date db' stats'' rest

/-- Active standing bookings whose validity range intersects a window,
under the optional subscription / template filters — the booking query
of the windowed pass (lines 548-566). -/
def activeBookingsInWindow (db : DB) (start_date end_date : Day)
    (subscription_id template_id : Option Nat) : List StandingBooking :=
  db.standing_bookings.filter fun sb =>
    sb.status == "active" && sb.start_date ≤ end_date && sb.end_date ≥ start_date &&
      (subscription_id.all fun sid => sb.subscription_id == sid) &&
      (template_id.all fun tid => sb.template_id == tid)

/-- `materialize_standing_bookings` (lines 509-580): the windowed
materialization pass.  `today` stands for `date.today()`, used only when
`start_date` is not supplied. -/
def materialize_standing_bookings (db : DB) (today : Day) (window_weeks : Nat)
    (start_date? : Option Day) (subscription_id template_id : Option Nat) :
    DB × Stats :=
  let start_date := start_date?.getD today
  let end_date := start_date + 7 * (window_weeks : Int)
  let bookings := activeBookingsInWindow db start_date end_date
    subscription_id template_id
  materializeBookingList start_date end_date db Stats.empty bookings

/-- The per-booking loop of `materialize_standing_bookings_for_session`
(lines 631-641): a raised per-booking error is recorded and processing
continues; `create_reservation_if_possible` mutates nothing when it
raises. -/
def materializeForSessionList (sessionId : Nat) :
    DB → Stats → List StandingBooking → DB × Stats
  | db, stats, [] => (db, stats)
  | db, stats, sb :: rest =>
    let stats := { stats with processed_bookings := stats.processed_bookings + 1 }
    match create_reservation_if_possible db sb sessionId stats "standing" with
    | .ok (db', stats') => materializeForSessionList sessionId db' stats' rest
    | .error e =>
      materializeForSessionList sessionId db
        { stats with errors := stats.errors ++ [e] } rest

/-- `materialize_standing_bookings_for_session` (lines 583-645):
real-time single-session materialization.  Returns the stats; raises
only if the session lookup itself fails. -/
def materialize_standing_bookings_for_session (db : DB) (session_id : Nat) :
    Except String (DB × Stats) :=
  match scalarOneOrNone (db.sessions.filter fun s => s.id == session_id) with
  | .error e => .error e
  | .ok none => .ok (db, Stats.empty)
  | .ok (some session) =>
    if !(optTruthy session.template_id) || session.status != "scheduled" then
      .ok (db, Stats.empty)
    else
      match db.templates.find? fun t => some t.id == session.template_id with
      | none => .ok (db, Stats.empty)
      | some template =>
        if !template.is_active then .ok (db, Stats.empty)
        else
          let session_date := dateOf session.start_at
          let bookings := db.standing_bookings.filter fun sb =>
            some sb.template_id == session.template_id && sb.status == "active" &&
              sb.start_date ≤ session_date && sb.end_date ≥ session_date
          .ok (materializeForSessionList session.id db Stats.empty bookings)

/-- `create_standing_booking` (lines 240-335): the Standing Booking
Registry create path with its validation chain. -/
def create_standing_booking (db : DB) (person_id subscription_id template_id : Nat)
    (start_date end_date : Day) (seat_id : Option Nat) :
    Except String (DB × StandingBooking) :=
  match scalarOneOrNone (db.subscriptions.filter fun s =>
    s.id == subscription_id && s.person_id == person_id && s.status == "active") with
  | .error e => .error e
  | .ok none => .error "Active subscription not found for this person"
  | .ok (some _) =>
    match scalarOneOrNone (db.templates.filter fun t => t.id == template_id) with
    | .error e => .error e
    | .ok none => .error "Class template not found"
    | .ok (some template) =>
      if !template.is_active then
        .error "Class template is not active"
      else
        let seatCheck : Except String Unit :=
          if optTruthy seat_id then
            match scalarOneOrNone (db.seats.filter fun s =>
              some s.id == seat_id && s.venue_id == template.venue_id && s.is_active) with
            | .error e => .error e
            | .ok none => .error "Seat not found or not available for this venue"
            | .ok (some _) => .ok ()
          else .ok ()
        match seatCheck with
        | .error e => .error e
        | .ok _ =>
          match scalarOneOrNone (db.standing_bookings.filter fun sb =>
            sb.person_id == person_id && sb.template_id == template_id &&
              sb.status == "active") with
          | .error e => .error e
          | .ok (some _) =>
            .error "Active standing booking already exists for this person and template"
          | .ok none =>
            let seatTakenCheck : Except String Unit :=
              if optTruthy seat_id then
                match scalarOneOrNone (db.standing_bookings.filter fun sb =>
                  sb.template_id == template_id && sb.seat_id == seat_id &&
                    sb.status == "active" && sb.person_id != person_id) with
                | .error e => .error e
                | .ok (some _) =>
                  .error "Seat is already reserved by another person for this template"
                | .ok none => .ok ()
              else .ok ()
            match seatTakenCheck with
            | .error e => .error e
            | .ok _ =>
              let sb : StandingBooking :=
                { id := db.next_id, person_id := person_id,
                  subscription_id := subscription_id, template_id := template_id,
                  seat_id := seat_id, start_date := start_date, end_date := end_date,
                  status := "active", created_at := db.next_id }
              .ok ({ db with standing_bookings := db.standing_bookings ++ [sb],
                             next_id := db.next_id + 1 }, sb)

/-! ## Session expander (`app/crud/classSessionCrud.py`) -/

/-- A date matches a template when `current_date.weekday() ==
(template.weekday - 1) % 7` (classSessionCrud.py line 131), converting
the stored Sunday-based weekday to Python's Monday-based one. -/
def dateMatchesTemplate (t : ClassTemplate) (d : Day) : Bool :=
  pyWeekday d == Int.emod (t.weekday - 1) 7

/-- Existing-session rows for a `(template, date)` pair — the
idempotency query of the expander (lines 138-143). -/
def sessionsOfTemplateOnDate (db : DB) (templateId : Nat) (d : Day) :
    List ClassSession :=
  db.sessions.filter fun s => s.template_id == some templateId && dateOf s.start_at == d

/-- The session row the expander builds for a matching date (lines
148-160); the id is assigned when the batch is added. -/
def expanderSession (t : ClassTemplate) (d : Day) (id : Nat) : ClassSession :=
  { id := id, template_id := some t.id, class_type_id := t.class_type_id,
    venue_id := t.venue_id, instructor_id := t.instructor_id,
    start_at := combine d t.start_time_local,
    end_at := combine d t.start_time_local + (t.default_duration_min : Int),
    capacity := natOrElse t.default_capacity 20, status := "scheduled" }

/-- Iteration core of the expander's date loop, structurally recursive
on the number of remaining days. -/
def expanderCollectGo (db : DB) (t : ClassTemplate) : Nat → Int → Except String (List Day)
  | 0, _ => .ok []
  | n + 1, current =>
    match expanderCollectGo db t n (current + 1) with
    | .error e => .error e
    | .ok rest =>
      if dateMatchesTemplate t current then
        match scalarOneOrNone (sessionsOfTemplateOnDate db t.id current) with
        | .error e => .error e
        | .ok existing? => if existing?.isNone then .ok (current :: rest) else .ok rest
      else
        .ok rest

/-- The `while current_date <= end_date` loop of the expander (lines
129-163): collect the dates for which a session must be created.  The
existing-session check goes through `scalar_one_or_none` and can raise. -/
def expanderCollectDays (db : DB) (t : ClassTemplate) (current endDate : Int) :
    Except String (List Day) :=
  expanderCollectGo db t ((endDate + 1 - current).toNat) current

/-- Assign ids to the collected batch (`db.add_all`), starting from the
session's id counter. -/
def assignSessionIds (t : ClassTemplate) (nextId : Nat) : List Day → List ClassSession
  | [] => []
  | d :: rest => expanderSession t d nextId :: assignSessionIds t (nextId + 1) rest

/-- `generate_sessions_from_template` (classSessionCrud.py lines
106-177): the Session Expander.  Returns the created sessions; when the
batch is non-empty it is added and committed (the commit happens inside
this call even when a caller's transaction is still open).  No
materialization is triggered here. -/
def generate_sessions_from_template (tx : Tx) (template_id : Nat)
    (start_date end_date : Day) : Except String (Tx × List ClassSession) :=
  let db := tx.pending
  match scalarOneOrNone (db.templates.filter fun t => t.id == template_id) with
  | .error e => .error e
  | .ok none => .ok (tx, [])
  | .ok (some template) =>
    if !template.is_active then .ok (tx, [])
    else
      match expanderCollectDays db template start_date end_date with
      | .error e => .error e
      | .ok days =>
        let created := assignSessionIds template db.next_id days
        if created.isEmpty then
          .ok (tx, [])
        else
          let db' := { db with sessions := db.sessions ++ created,
                               next_id := db.next_id + created.length }
          .ok (Tx.commit { tx with pending := db' }, created)

/-- `create_class_session` (classSessionCrud.py lines 19-64): single
ad-hoc session creation.  Adds and commits the session, then — when the
session belongs to a template — synchronously runs single-session
materialization, committing again if reservations were created and
rolling back (keeping the committed session) if materialization
raised. -/
def create_class_session (tx : Tx) (template_id : Option Nat)
    (class_type_id venue_id : Nat) (start_at end_at : Minute) (capacity : Nat)
    (instructor_id : Option Nat) (status : String) : Tx × ClassSession :=
  let db := tx.pending
  let session : ClassSession :=
    { id := db.next_id, template_id := template_id, class_type_id := class_type_id,
      venue_id := venue_id, instructor_id := instructor_id, start_at := start_at,
      end_at := end_at, capacity := capacity, status := status }
  let tx := Tx.commit { tx with pending :=
    { db with sessions := db.sessions ++ [session], next_id := db.next_id + 1 } }
  if optTruthy session.template_id then
    match materialize_standing_bookings_for_session tx.pending session.id with
    | .ok (db', stats) =>
      if stats.created_reservations > 0 then
        (Tx.commit { tx with pending := db' }, session)
      else
        ({ tx with pending := db' }, session)
    | .error _ => (Tx.rollback tx, session)
  else
    (tx, session)

/-! ## Renewal / window orchestrator (`app/crud/membershipsCrud.py`) -/

/-- `_align_date_to_weekday` (membershipsCrud.py lines 139-152): first
date on or after `start_date` falling on the template's weekday, after
normalizing the stored weekday (0 = Sunday) to ISO numbering. -/
def align_date_to_weekday (start_date : Day) (template_weekday : Option Int) : Day :=
  match template_weekday with
  | none => start_date
  | some w =>
    let normalized :=
      if w ≤ 0 then
        if w == 0 then 7 else (let m := Int.emod w 7; if m == 0 then 7 else m)
      else if w > 7 then Int.emod (w - 1) 7 + 1
      else w
    let base := isoweekday start_date
    let delta := Int.emod (normalized - base) 7
    start_date + delta

/-- `_get_plan_window_override` (lines 155-175): probe the optional
window-override attributes; a value is used only when positive. -/
def get_plan_window_override (plan : MembershipPlan) : Option Int :=
  match plan.standing_window_days with
  | some v => if v > 0 then some v else none
  | none => none

/-- `_calculate_window_end_for_plan` (lines 178-208): final (inclusive)
date for standing-booking creation / materialization.  An explicit
override wins; otherwise day- and week-unit plans clamp to their
duration, all other units fall back to the subscription end. -/
def calculate_window_end_for_plan (plan : MembershipPlan) (window_start : Day)
    (subscription_end : Day) : Day :=
  match get_plan_window_override plan with
  | some override_days => min subscription_end (window_start + (override_days - 1))
  | none =>
    let dv := plan.duration_value
    if plan.duration_unit == "day" && dv != 0 && dv > 0 then
      min subscription_end (window_start + (dv - 1))
    else if plan.duration_unit == "week" && dv != 0 && dv > 0 then
      min subscription_end (window_start + (dv * 7 - 1))
    else
      subscription_end

/-- `_calculate_subscription_end` (lines 121-137): plan duration applied
to the start, then pushed to the end of that calendar day (23:59). -/
def calculate_subscription_end (plan : MembershipPlan) (start_at : Minute) : Minute :=
  let end_at :=
    if plan.duration_unit == "day" then start_at + plan.duration_value * 1440
    else if plan.duration_unit == "week" then start_at + plan.duration_value * 7 * 1440
    else if plan.duration_unit == "month" then
      combine (addMonths (dateOf start_at) plan.duration_value) (Int.emod start_at 1440)
    else start_at + plan.duration_value * 1440
  combine (dateOf end_at) 1439

/-- `_resolve_payment_amount` (lines 109-117): explicit amount or the
plan price. -/
def resolve_payment_amount (plan : MembershipPlan) (payment_amount : Option Int) : Int :=
  payment_amount.getD plan.price

/-- `create_membership_subscription` (lines 270-312), as called with
`commit := False` inside the renewal transaction.  When no plan object
is passed the plan is re-queried with `scalar_one`. -/
def create_membership_subscription (db : DB) (person_id plan_id : Nat)
    (start_at : Minute) (status : String) (plan? : Option MembershipPlan) :
    Except String (DB × MembershipSubscription) :=
  let planRes : Except String MembershipPlan :=
    match plan? with
    | some p => .ok p
    | none => scalarOne (db.plans.filter fun p => p.id == plan_id)
  match planRes with
  | .error e => .error e
  | .ok plan =>
    let end_at := calculate_subscription_end plan start_at
    let sub : MembershipSubscription :=
      { id := db.next_id, person_id := person_id, plan_id := plan_id,
        start_at := start_at, end_at := end_at, status := status }
    .ok ({ db with subscriptions := db.subscriptions ++ [sub],
                   next_id := db.next_id + 1 }, sub)

/-- `create_payment` (lines 315-357), as called with `commit := False`
inside the renewal transaction. -/
def create_payment (db : DB) (person_id : Nat) (subscription_id : Option Nat)
    (amount : Int) (method status : String) : DB × Payment :=
  let p : Payment :=
    { id := db.next_id, person_id := person_id, subscription_id := subscription_id,
      amount := amount, method := method, status := status }
  ({ db with payments := db.payments ++ [p], next_id := db.next_id + 1 }, p)

/-- `get_member_active_subscription` (lines 360-383): the member's
active subscription with the latest end date (`first()`, never
raises). -/
def get_member_active_subscription (db : DB) (member_id : Nat) :
    Option MembershipSubscription :=
  (sortBy (fun s => -s.end_at)
    (db.subscriptions.filter fun s =>
      s.person_id == member_id && s.status == "active")).head?

/-- `_get_templates_in_same_group` (lines 471-524): all active templates
sharing class type, venue, local start time and instructor with the
reference template, ordered by weekday. -/
def get_templates_in_same_group (db : DB) (template_id : Nat) :
    Except String (List ClassTemplate) :=
  match scalarOneOrNone (db.templates.filter fun t => t.id == template_id) with
  | .error e => .error e
  | .ok none => .ok []
  | .ok (some ref) =>
    .ok (sortBy (fun t => t.weekday)
      (db.templates.filter fun t =>
        t.class_type_id == ref.class_type_id && t.venue_id == ref.venue_id &&
          t.start_time_local == ref.start_time_local && t.is_active &&
          t.instructor_id == ref.instructor_id))

/-- The per-template loop of `_create_standing_bookings_for_group`
(lines 556-590): skip templates whose aligned start falls beyond the
membership end, swallow per-template creation errors, and record
`(standing-booking id, template id, aligned start)` for each success. -/
def groupBookingLoop (sub : MembershipSubscription) (seat_id : Option Nat)
    (membership_start membership_end : Day) :
    DB → List ClassTemplate → DB × List Nat × List Nat × List (Nat × Day)
  | db, [] => (db, [], [], [])
  | db, t :: rest =>
    let aligned := align_date_to_weekday membership_start (some t.weekday)
    if aligned > membership_end then
      groupBookingLoop sub seat_id membership_start membership_end db rest
    else
      match create_standing_booking db sub.person_id sub.id t.id aligned
        membership_end seat_id with
      | .ok (db', sb) =>
        let r := groupBookingLoop sub seat_id membership_start membership_end db' rest
        (r.1, sb.id :: r.2.1, t.id :: r.2.2.1, (t.id, aligned) :: r.2.2.2)
      | .error _ =>
        groupBookingLoop sub seat_id membership_start membership_end db rest

/-- `_create_standing_bookings_for_group` (lines 527-595): create one
standing booking per template of the time-slot group.  Raises only
through the group query, before any write. -/
def create_standing_bookings_for_group (db : DB) (sub : MembershipSubscription)
    (template_id : Nat) (seat_id : Option Nat) :
    DB × Except String (List Nat × List Nat × List (Nat × Day)) :=
  match get_templates_in_same_group db template_id with
  | .error e => (db, .error e)
  | .ok templates =>
    if templates.isEmpty then (db, .ok ([], [], []))
    else
      let membership_start := dateOf sub.start_at
      let membership_end := dateOf sub.end_at
      let r := groupBookingLoop sub seat_id membership_start membership_end db templates
      (r.1, .ok r.2)

/-- Statistics of `_generate_sessions_for_templates`. -/
structure GenStats where
  templates_processed : Nat := 0
  sessions_created : Nat := 0
deriving DecidableEq, Repr

/-- The per-template loop of `_generate_sessions_for_templates` (lines
642-667): per-template errors are swallowed and processing continues
(the expander mutates nothing when it raises). -/
def generateForTemplatesLoop (start_date end_date : Day) :
    Tx → GenStats → List Nat → Tx × GenStats
  | tx, stats, [] => (tx, stats)
  | tx, stats, tid :: rest =>
    match generate_sessions_from_template tx tid start_date end_date with
    | .ok (tx', created) =>
      generateForTemplatesLoop start_date end_date tx'
        { templates_processed := stats.templates_processed + 1,
          sessions_created := stats.sessions_created + created.length } rest
    | .error _ =>
      generateForTemplatesLoop start_date end_date tx stats rest

/-- `_generate_sessions_for_templates` (lines 597-670).  `today` stands
for `date.today()`, used only when `start_date` is not supplied. -/
def generate_sessions_for_templates (tx : Tx) (template_ids : List Nat) (today : Day)
    (start_date? end_date? : Option Day) (weeks_ahead? : Option Nat) : Tx × GenStats :=
  let start_date := start_date?.getD today
  let end_date := end_date?.getD (start_date + 7 * ((weeks_ahead?.getD 8 : Nat) : Int))
  generateForTemplatesLoop start_date end_date tx {} template_ids

/-- `_create_reservations_for_subscription` (lines 673-734): windowed
materialization restricted to one subscription; failures are caught and
reported through the `"error"` key of the returned stats. -/
def create_reservations_for_subscription (db : DB) (subscription_id : Nat)
    (today : Day) (start_date? : Option Day) (weeks_ahead? : Option Nat) :
    DB × Stats :=
  match scalarOneOrNone (db.subscriptions.filter fun s => s.id == subscription_id) with
  | .error e => (db, { Stats.empty with error_msg := some e })
  | .ok none => (db, { Stats.empty with error_msg := some "Subscription not found" })
  | .ok (some sub) =>
    let weeks_ahead :=
      match weeks_ahead? with
      | some w => w
      | none =>
        let duration_days := dateOf sub.end_at - dateOf sub.start_at
        (max 1 (Int.fdiv duration_days 7 + 1)).toNat
    materialize_standing_bookings db today weeks_ahead
      (some (start_date?.getD (dateOf sub.start_at)))
      (some subscription_id) none

/-- `_assert_materialization_success` (lines 737-764): the renewal's
post-materialization assertion.  Raises when no standing bookings were
created, or when any seat-conflict / no-capacity / error signal is
present, or when no reservation was created or matched. -/
def assert_materialization_success (stats : Stats) : Except String Unit :=
  if stats.standing_booking_ids.isEmpty then
    .error "No se pudieron crear los standing bookings para el horario fijo."
  else
    let materialized_total := stats.created_reservations + stats.skipped_existing
    let reasons : List String :=
      (if stats.skipped_seat_taken != 0 then ["asientos ocupados"] else []) ++
      (if stats.skipped_no_capacity != 0 then ["sin cupo"] else []) ++
      (if strTruthy stats.error_msg then ["error"] else []) ++
      (if !stats.errors.isEmpty then ["errores"] else []) ++
      (if materialized_total == 0 then ["no se generaron reservas"] else [])
    if !reasons.isEmpty then
      .error "No se pudieron materializar las reservas."
    else
      .ok ()

/-- The generation loop of `_handle_fixed_timeslot_effects` (lines
814-824): one expander call per used template, each from that template's
aligned start date up to the window end. -/
def handleGenerationLoop (today window_start window_end : Day)
    (dates : List (Nat × Day)) : Tx → Nat → List Nat → Tx × Nat
  | tx, acc, [] => (tx, acc)
  | tx, acc, tid :: rest =>
    let template_start := ((dates.find? fun p => p.1 == tid).map Prod.snd).getD window_start
    let (tx', gstats) := generate_sessions_for_templates tx [tid] today
      (some template_start) (some window_end) none
    handleGenerationLoop today window_start window_end dates tx'
      (acc + gstats.sessions_created) rest

/-- `_handle_fixed_timeslot_effects` (lines 767-846): group standing
bookings, coverage-window computation, session generation and immediate
materialization.  Raises only through the group query, before any
write. -/
def handle_fixed_timeslot_effects (tx : Tx) (subscription : MembershipSubscription)
    (plan : MembershipPlan) (template_id : Nat) (seat_id : Option Nat)
    (auto_materialize : Bool) (today : Day) :
    Tx × Except String (Option Nat × Stats) :=
  let (db1, res) := create_standing_bookings_for_group tx.pending subscription
    template_id seat_id
  match res with
  | .error e => ({ tx with pending := db1 }, .error e)
  | .ok (standing_booking_ids, template_ids_used, template_start_dates) =>
    let tx1 : Tx := { tx with pending := db1 }
    let primary_id := standing_booking_ids.head?
    let earliest_template_start :=
      listMinD (template_start_dates.map Prod.snd) (dateOf subscription.start_at)
    let window_start := min (dateOf subscription.start_at) earliest_template_start
    let subscription_end := dateOf subscription.end_at
    let window_end := calculate_window_end_for_plan plan window_start subscription_end
    let coverage_days := max 1 (window_end - window_start + 1)
    let weeks_ahead := (max 1 (Int.fdiv (coverage_days + 6) 7)).toNat
    if !standing_booking_ids.isEmpty && auto_materialize then
      let (tx2, created_total) := handleGenerationLoop today window_start window_end
        template_start_dates tx1 0 template_ids_used
      let (db3, mstats) := create_reservations_for_subscription tx2.pending
        subscription.id today (some window_start) (some weeks_ahead)
      let stats := { mstats with
        standing_booking_ids := standing_booking_ids,
        window_start := some window_start, window_end := some window_end,
        weeks_ahead := some weeks_ahead, sessions_generated := some created_total }
      ({ tx2 with pending := db3 }, .ok (primary_id, stats))
    else
      let stats := { Stats.empty with
        standing_booking_ids := standing_booking_ids,
        window_start := some window_start, window_end := some window_end,
        weeks_ahead := some weeks_ahead, sessions_generated := some 0 }
      (tx1, .ok (primary_id, stats))

/-- Successful outcome of `renew_subscription_with_standing_booking`. -/
structure RenewResult where
  subscription : MembershipSubscription
  payment : Payment
  plan : MembershipPlan
  standing_booking_id : Option Nat
  stats : Stats
deriving DecidableEq, Repr

/-- `renew_subscription_with_standing_booking` (membershipsCrud.py lines
849-1038).  `now` stands for `datetime.now()`, `today` for
`date.today()`.  On an escaped exception the enclosing session rolls the
pending state back (`Tx.rollback`); the committed snapshots published by
inner commits (the expander's) survive. -/
def renew_subscription_with_standing_booking (tx : Tx) (now : Minute) (today : Day)
    (member_id plan_id : Nat) (template_id0 seat_id0 : Option Nat)
    (start_at? : Option Minute) (payment_method : String)
    (payment_amount : Option Int) (payment_status : String)
    (auto_materialize : Bool) : Tx × Except String RenewResult :=
  let db := tx.pending
  match scalarOne (db.plans.filter fun p => p.id == plan_id) with
  | .error _ => (Tx.rollback tx, .error "Plan not found")
  | .ok plan =>
    let current? := get_member_active_subscription db member_id
    let needs0 := plan.fixed_time_slot || template_id0.isSome
    let resolved :=
      if !(optTruthy template_id0) && current?.isSome then
        match current? with
        | some current =>
          let prev? := (sortBy (fun sb => -((sb.created_at : Int)))
            (db.standing_bookings.filter fun sb =>
              sb.subscription_id == current.id)).head?
          match prev? with
          | some prev =>
            (some prev.template_id,
             if !(optTruthy seat_id0) then prev.seat_id else seat_id0, true)
          | none => (template_id0, seat_id0, needs0)
        | none => (template_id0, seat_id0, needs0)
      else (template_id0, seat_id0, needs0)
    let template_id := resolved.1
    let seat_id := resolved.2.1
    let needs_standing_booking := resolved.2.2
    let normalized_start :=
      match start_at? with
      | none =>
        match current? with
        | some current => current.end_at
        | none => now
      | some s => s
    let expired_ids := (db.subscriptions.filter fun s =>
      s.person_id == member_id && s.status == "active").map (·.id)
    let db := { db with subscriptions := db.subscriptions.map fun s =>
      if s.person_id == member_id && s.status == "active" then
        { s with status := "expired" } else s }
    let db :=
      if !expired_ids.isEmpty then
        { db with standing_bookings := db.standing_bookings.map fun sb =>
          if expired_ids.contains sb.subscription_id && sb.status == "active" then
            { sb with status := "canceled" } else sb }
      else db
    match create_membership_subscription db member_id plan_id normalized_start
      "active" none with
    | .error e => (Tx.rollback tx, .error e)
    | .ok (db, subscription) =>
      let amount := resolve_payment_amount plan payment_amount
      let (db, payment) := create_payment db member_id (some subscription.id) amount
        payment_method payment_status
      if needs_standing_booking then
        match template_id with
        | none =>
          (Tx.rollback tx, .error "Debe seleccionar un horario para renovar este plan")
        | some tid =>
          if tid == 0 then
            (Tx.rollback tx, .error "Debe seleccionar un horario para renovar este plan")
          else if !auto_materialize then
            (Tx.rollback tx,
             .error "La renovacion requiere materializar reservas automaticamente")
          else
            let tx2 : Tx := { tx with pending := db }
            let hr := handle_fixed_timeslot_effects tx2 subscription plan tid seat_id
              auto_materialize today
            match hr.2 with
            | .error e => (Tx.rollback hr.1, .error e)
            | .ok (primary_id, mstats) =>
              match assert_materialization_success mstats with
              | .error e => (Tx.rollback hr.1, .error e)
              | .ok _ =>
                (Tx.commit hr.1,
                 .ok { subscription := subscription, payment := payment, plan := plan,
                       standing_booking_id := primary_id, stats := mstats })
      else
        (Tx.commit { tx with pending := db },
         .ok { subscription := subscription, payment := payment, plan := plan,
               standing_booking_id := none, stats := Stats.empty })

/-- The failure condition of the renewal
assertion, as a plain predicate. -/
def assertFailureCondition (s : Stats) : Prop :=
  s.standing_booking_ids = [] ∨ s.skipped_seat_taken ≠ 0 ∨
    s.skipped_no_capacity ≠ 0 ∨ strTruthy s.error_msg = true ∨ s.errors ≠ [] ∨
    s.created_reservations + s.skipped_existing = 0

/-- Weekday of a date under the specification's Sunday-based convention
(0 = Sunday .. 6 = Saturday).  Spec-side definition, to be compared with
the code's Monday-based test `dateMatchesTemplate`. -/
def sundayWeekday (d : Day) : Int := Int.emod (pyWeekday d + 1) 7

/-- Iteration core of `rangeDays`, structurally recursive on the number
of remaining days. -/
def rangeDaysGo : Nat → Int → List Day
  | 0, _ => []
  | n + 1, current => current :: rangeDaysGo n (current + 1)

/-- All calendar dates of a closed range, in order (spec-side companion
of the expander's date loop). -/
def rangeDays (current endDate : Int) : List Day :=
  rangeDaysGo ((endDate + 1 - current).toNat) current

/-- Two database states agreeing on every table except `reservations`
(and the id counter): the footprint of a materialization run. -/
def SameTables (db' db : DB) : Prop :=
  db'.sessions = db.sessions ∧ db'.standing_bookings = db.standing_bookings ∧
    db'.standing_booking_exceptions = db.standing_booking_exceptions ∧
    db'.templates = db.templates ∧ db'.seats = db.seats ∧ db'.plans = db.plans ∧
    db'.subscriptions = db.subscriptions ∧ db'.payments = db.payments

/-- Count of non-canceled reservations of a session in the claim's sense
(statuses `reserved`, `checked_in`, `waitlisted`, `no_show`).  This
follows the specification's words; the code's capacity check uses
`activeReservationCount` (only `reserved` / `checked_in`) instead. -/
def claimNonCanceledCount (db : DB) (sessionId : Nat) : Nat :=
  (db.reservations.filter fun r =>
    r.session_id == sessionId &&
      (r.status == "reserved" || r.status == "checked_in" ||
        r.status == "waitlisted" || r.status == "no_show")).length

/-- The validation failure conditions of the Standing Booking Registry's
create path, phrased as plain predicates over the store (spec-side): no
active subscription owned by the person, missing or inactive template,
invalid seat for the template's venue, duplicate active booking for
`(person, template)`, or the seat held by an active booking of a
different person on the same template. -/
def registryCreateViolation (db : DB) (person_id subscription_id template_id : Nat)
    (seat_id : Option Nat) : Prop :=
  (¬ ∃ s ∈ db.subscriptions, s.id = subscription_id ∧ s.person_id = person_id ∧
      s.status = "active") ∨
  (¬ ∃ t ∈ db.templates, t.id = template_id) ∨
  (∃ t ∈ db.templates, t.id = template_id ∧ t.is_active = false) ∨
  (optTruthy seat_id = true ∧ ∃ t ∈ db.templates, t.id = template_id ∧
      ¬ ∃ st ∈ db.seats, some st.id = seat_id ∧ st.venue_id = t.venue_id ∧
        st.is_active = true) ∨
  (∃ sb ∈ db.standing_bookings, sb.person_id = person_id ∧
      sb.template_id = template_id ∧ sb.status = "active") ∨
  (optTruthy seat_id = true ∧ ∃ sb ∈ db.standing_bookings,
      sb.template_id = template_id ∧ sb.seat_id = seat_id ∧ sb.status = "active" ∧
      sb.person_id ≠ person_id)

/-- Pointwise sum of the counters (and concatenation of the error lists)
of two statistics records, keeping the first record's non-counter
fields.  Used to express that the materialization loops thread their
statistics additively. -/
def statsAddCounts (a b : Stats) : Stats :=
  { a with
    processed_bookings := a.processed_bookings + b.processed_bookings,
    created_reservations := a.created_reservations + b.created_reservations,
    skipped_no_capacity := a.skipped_no_capacity + b.skipped_no_capacity,
    skipped_seat_taken := a.skipped_seat_taken + b.skipped_seat_taken,
    skipped_existing := a.skipped_existing + b.skipped_existing,
    skipped_exceptions := a.skipped_exceptions + b.skipped_exceptions,
    errors := a.errors ++ b.errors }

/-! ## Concrete fixtures

Small concrete database states used by witnesses and counterexamples.
Day numbers are kept small: day 0 is a Monday, so day 1 is a Tuesday,
matching a stored template weekday of 2 under the 0 = Sunday encoding. -/

/-- A Tuesday 18:00 template (weekday 2 under 0 = Sunday). -/
def tmplA : ClassTemplate :=
  { id := 1, class_type_id := 1, venue_id := 1, default_capacity := some 10,
    default_duration_min := 60, weekday := 2, start_time_local := 1080,
    instructor_id := none, is_active := true }

/-- An empty database with the id counter at 100. -/
def emptyDB : DB :=
  { templates := [], sessions := [], reservations := [], standing_bookings := [],
    standing_booking_exceptions := [], seats := [], plans := [], subscriptions := [],
    payments := [], next_id := 100 }

/-- A scheduled session of `tmplA` on day 1 (a Tuesday). -/
def sessA : ClassSession :=
  { id := 2, template_id := some 1, class_type_id := 1, venue_id := 1,
    instructor_id := none, start_at := combine 1 1080, end_at := combine 1 1140,
    capacity := 10, status := "scheduled" }

/-- A seatless standing booking of person 1 on `tmplA`, valid over days
0-30. -/
def sbA : StandingBooking :=
  { id := 7, person_id := 1, subscription_id := 20, template_id := 1,
    seat_id := none, start_date := 0, end_date := 30, status := "active",
    created_at := 7 }

/-- A no-show reservation of person 2 on session 2: non-canceled in the
claim's sense, but not slot-holding for the code's capacity check. -/
def noShowResv : Reservation := ⟨4, 2, 2, none, "no_show", "manual"⟩

/-- Database for the C4 counterexample: a capacity-1 session already
carrying a no-show reservation, and a seatless standing booking of
another person targeting it. -/
def dbC4 : DB :=
  { emptyDB with templates := [tmplA],
                 sessions := [{ sessA with capacity := 1 }],
                 reservations := [noShowResv],
                 standing_bookings := [sbA] }

/-- A canceled reservation of person 1 on session 2. -/
def canceledResv : Reservation := ⟨3, 2, 1, none, "canceled", "manual"⟩

/-- Database for the C10 witness: the only reservation for the
`(session 2, person 1)` pair is canceled. -/
def dbC10 : DB :=
  { emptyDB with sessions := [sessA], reservations := [canceledResv],
                 standing_bookings := [sbA] }

/-- Template with `default_capacity = 0` (stored, non-null) for the C7
counterexample. -/
def tmplZeroCap : ClassTemplate := { tmplA with default_capacity := some 0 }

/-- Database for the C7 counterexample. -/
def dbC7 : DB := { emptyDB with templates := [tmplZeroCap] }

/-- Database for the C7 witness: one active template, no sessions. -/
def dbC7w : DB := { emptyDB with templates := [tmplA] }

/-- Database for C3: an active template and an active standing booking
covering day 1, but no sessions or reservations yet. -/
def dbC3 : DB := { emptyDB with templates := [tmplA], standing_bookings := [sbA] }

/-- A Wednesday template (weekday 3 under 0 = Sunday). -/
def tmplW : ClassTemplate := { tmplA with weekday := 3 }

/-- Active subscription starting Monday day 0, ending day 9 (end of
day). -/
def subC8 : MembershipSubscription :=
  { id := 20, person_id := 1, plan_id := 10, start_at := 0,
    end_at := combine 9 1439, status := "active" }

/-- A 3-day fixed-slot plan with no window override. -/
def planC8 : MembershipPlan :=
  { id := 10, price := 100, duration_value := 3, duration_unit := "day",
    fixed_time_slot := true, standing_window_days := none }

/-- Database for C8: the Wednesday template and the active Monday-start
subscription. -/
def dbC8 : DB := { emptyDB with templates := [tmplW], subscriptions := [subC8] }

/-- An active seat 5 in venue 1. -/
def seat5 : Seat := ⟨5, 1, true⟩

/-- Another person's active standing booking on template 1, seat 5. -/
def sbOther : StandingBooking := ⟨9, 2, 21, 1, some 5, 0, 90, "active", 9⟩

/-- Database for the C9 witness: person 1 holds an active subscription,
template 1 and seat 5 are valid, but person 2 already holds seat 5 on
the template. -/
def dbC9 : DB :=
  { emptyDB with templates := [tmplA], seats := [seat5],
                 subscriptions := [⟨20, 1, 10, 0, combine 90 1439, "active"⟩],
                 standing_bookings := [sbOther] }

/-- A skip exception of booking `sbA` on day 1, the date of `sessA`. -/
def excSkip : StandingBookingException :=
  { standing_booking_id := 7, session_date := 1, action := "skip",
    new_session_id := none }

/-- An ad-hoc session (no template) with id 50, capacity 5, on day 8: the
reschedule target of `excRes`. -/
def sessC6T : ClassSession :=
  { id := 50, template_id := none, class_type_id := 1, venue_id := 1,
    instructor_id := none, start_at := combine 8 600, end_at := combine 8 660,
    capacity := 5, status := "scheduled" }

/-- A reschedule exception of `sbA` on day 1 pointing at session 50. -/
def excRes : StandingBookingException :=
  { standing_booking_id := 7, session_date := 1, action := "reschedule",
    new_session_id := some 50 }

/-- Database for the C6 skip scenario: `sessA` on day 1 and a skip
exception of `sbA` on that date. -/
def dbC6skip : DB :=
  { emptyDB with templates := [tmplA], sessions := [sessA],
                 standing_bookings := [sbA],
                 standing_booking_exceptions := [excSkip] }

/-- Database for the C6 reschedule scenario: `sessA` on day 1 and a
reschedule exception of `sbA` from that date to session 50. -/
def dbC6res : DB :=
  { emptyDB with templates := [tmplA], sessions := [sessA, sessC6T],
                 standing_bookings := [sbA],
                 standing_booking_exceptions := [excRes] }

/-- A second scheduled session of `tmplA`, one week after `sessA`. -/
def sessC5 : ClassSession :=
  { sessA with id := 3, start_at := combine 8 1080, end_at := combine 8 1140 }

/-- A pre-existing reservation of person 1 on session 3, present before
any materialization run. -/
def resvC5 : Reservation := ⟨5, 3, 1, none, "reserved", "manual"⟩

/-- Database for the C5 counterexample: two sessions of `tmplA` in the
window and one reservation already present for the booking's person on
the second session. -/
def dbC5 : DB :=
  { emptyDB with templates := [tmplA], sessions := [sessA, sessC5],
                 standing_bookings := [sbA], reservations := [resvC5] }

/-- A 2-week fixed-slot plan for the C1 scenario. -/
def planC1 : MembershipPlan :=
  { id := 3, price := 100, duration_value := 2, duration_unit := "week",
    fixed_time_slot := true, standing_window_days := none }

/-- Seat 5 of session 2 held by person 2 before the renewal. -/
def resvC1 : Reservation := ⟨6, 2, 2, some 5, "reserved", "manual"⟩

/-- Database for the C1 counterexample: a fixed-slot plan, the Tuesday
template with one existing session whose seat 5 is taken by someone
else, and no subscriptions or payments yet. -/
def dbC1 : DB :=
  { emptyDB with plans := [planC1], templates := [tmplA], sessions := [sessA],
                 seats := [seat5], reservations := [resvC1] }

/-! ## Theorems -/

theorem scalarOneOrNone_nil : scalarOneOrNone ([] : List α) = .ok none := rfl

theorem scalarOneOrNone_singleton (a : α) :
    scalarOneOrNone [a] = .ok (some a) := rfl

theorem scalarOneOrNone_ok_none_iff (l : List α) :
    scalarOneOrNone l = .ok none ↔ l = [] := by
  cases l with
  | nil => simp [scalarOneOrNone]
  | cons a t => cases t <;> simp [scalarOneOrNone]

/-- C2 — amended.  `_assert_materialization_success` raises if and only
if zero standing bookings were created, or any seat-conflict /
no-capacity / error signal is present, or zero reservations were created
or matched.  (The claim's version — signals only count when
created + existing = 0 — is refuted by `C2_counterexample`.) -/
theorem C2_assert_failure_characterization (s : Stats) :
    exceptIsError (assert_materialization_success s) = true ↔
      assertFailureCondition s := by
  unfold assert_materialization_success assertFailureCondition
  by_cases h1 : s.standing_booking_ids.isEmpty <;>
    simp only [h1, if_true, if_false, Bool.false_eq_true] <;>
    [skip;
     by_cases h2 : s.skipped_seat_taken = 0 <;>
     by_cases h3 : s.skipped_no_capacity = 0 <;>
     by_cases h4 : strTruthy s.error_msg = true <;>
     by_cases h5 : s.errors.isEmpty <;>
     by_cases h6 : s.created_reservations + s.skipped_existing = 0]
  all_goals
    simp_all [exceptIsError, List.isEmpty_iff, List.isEmpty_eq_false]

/-- C2 — counterexample to the claim as stated: a stats object with a
seat-conflict signal but a positive created + existing total.  The claim
predicts success (`created + existing > 0`), but the code raises. -/
theorem C2_counterexample :
    let s : Stats := { standing_booking_ids := [1], created_reservations := 3,
                       skipped_seat_taken := 1 }
    ¬ (s.standing_booking_ids = [] ∨
        (s.created_reservations + s.skipped_existing = 0 ∧
          (s.skipped_seat_taken ≠ 0 ∨ s.skipped_no_capacity ≠ 0 ∨
            s.errors ≠ [] ∨ strTruthy s.error_msg = true))) ∧
      exceptIsError (assert_materialization_success s) = true := by
  constructor
  · intro h
    rcases h with h | ⟨h, _⟩ <;> simp at h
  · rfl

/-- C10 — confirmed.  The idempotency check of
`_create_reservation_if_possible` matches reservations of any status:
when some reservation row — in particular a canceled one — exists for
the `(session, person)` pair, the attempt counts `skipped_existing` and
leaves the database unchanged, so no replacement reservation is ever
created. -/
theorem C10_canceled_reservation_blocks (db : DB) (sb : StandingBooking)
    (sid : Nat) (stats : Stats) (src : String) (r : Reservation)
    (h : reservationsForPair db sid sb.person_id = [r]) :
    create_reservation_if_possible db sb sid stats src =
      .ok (db, { stats with skipped_existing := stats.skipped_existing + 1 }) := by
  unfold create_reservation_if_possible
  rw [h]
  rfl

/-- C10 — witness: a concrete database whose only reservation for the
pair is canceled; the attempt skips it as existing and changes
nothing. -/
theorem attempt_ok_frame {db db' : DB} {sb : StandingBooking} {sid : Nat}
    {stats stats' : Stats} {src : String}
    (h : create_reservation_if_possible db sb sid stats src = .ok (db', stats')) :
    db'.sessions = db.sessions ∧ db'.standing_bookings = db.standing_bookings ∧
      db'.standing_booking_exceptions = db.standing_booking_exceptions ∧
      db'.templates = db.templates ∧ db'.seats = db.seats ∧
      db'.plans = db.plans ∧ db'.subscriptions = db.subscriptions ∧
      db'.payments = db.payments := by
  unfold create_reservation_if_possible at h
  repeat' split at h
  all_goals simp only [Except.ok.injEq, Prod.mk.injEq, reduceCtorEq] at h
  all_goals obtain ⟨h1, h2⟩ := h
  all_goals subst h1
  all_goals simp [insertReservation]

theorem activeCount_insertReservation (db : DB) (sb : StandingBooking)
    (sid X : Nat) (src : String) :
    activeReservationCount (insertReservation db sb sid src) X =
      activeReservationCount db X + (if sid == X then 1 else 0) := by
  simp only [insertReservation, activeReservationCount, List.filter_append,
    List.length_append]
  by_cases h : sid == X <;>
    simp [h, isActiveReservationStatus]

theorem attempt_ok_activeCount_le {db db' : DB} {sb : StandingBooking} {sid X : Nat}
    {stats stats' : Stats} {src : String} {s : ClassSession}
    (hseat : optTruthy sb.seat_id = false)
    (h : create_reservation_if_possible db sb sid stats src = .ok (db', stats'))
    (hs : db.sessions.filter (fun x => x.id == X) = [s]) :
    activeReservationCount db' X ≤ max s.capacity (activeReservationCount db X) := by
  unfold create_reservation_if_possible at h
  repeat' split at h
  all_goals simp only [Except.ok.injEq, Prod.mk.injEq, reduceCtorEq] at h
  all_goals obtain ⟨h1, h2⟩ := h
  all_goals subst h1
  · exact le_max_right _ _
  · exact le_max_right _ _
  · simp_all
  · simp_all
  · exact le_max_right _ _
  · rename_i sess hsess hseatT hcount
    rw [activeCount_insertReservation]
    rcases eq_or_ne sid X with hX | hX
    · subst hX
      rw [hs] at hsess
      simp only [scalarOneOrNone, Except.ok.injEq, Option.some.injEq] at hsess
      subst hsess
      refine le_trans ?_ (le_max_left _ _)
      simp only [beq_self_eq_true, if_true]
      omega
    · have hb : (sid == X) = false := by simp [hX]
      rw [hb]
      simp only [Bool.false_eq_true, if_false, Nat.add_zero]
      exact le_max_right _ _

theorem SameTables.refl (db : DB) : SameTables db db := by
  simp [SameTables]

theorem SameTables.trans {db1 db2 db3 : DB} (h1 : SameTables db2 db1)
    (h2 : SameTables db3 db2) : SameTables db3 db1 := by
  obtain ⟨a1, b1, c1, d1, e1, f1, g1, i1⟩ := h1
  obtain ⟨a2, b2, c2, d2, e2, f2, g2, i2⟩ := h2
  exact ⟨a2.trans a1, b2.trans b1, c2.trans c1, d2.trans d1, e2.trans e1,
    f2.trans f1, g2.trans g1, i2.trans i1⟩

theorem attempt_ok_sameTables {db db' : DB} {sb : StandingBooking} {sid : Nat}
    {stats stats' : Stats} {src : String}
    (h : create_reservation_if_possible db sb sid stats src = .ok (db', stats')) :
    SameTables db' db :=
  attempt_ok_frame h

theorem max_chain {a c b1 b2 : Nat} (h1 : b2 ≤ max c b1) (h2 : a ≤ max c b2) :
    a ≤ max c b1 := by
  rcases le_max_iff.mp h2 with h | h
  · exact le_max_iff.mpr (Or.inl h)
  · exact le_trans h h1

theorem materializeSessionList_sameTables (sb : StandingBooking) :
    ∀ (ss : List ClassSession) (db : DB) (stats : Stats),
      SameTables (materializeSessionList sb db stats ss).1 db := by
  intro ss
  induction ss with
  | nil => intro db stats; exact SameTables.refl db
  | cons s rest ih =>
    intro db stats
    simp only [materializeSessionList]
    split
    · split
      · split
        · split
          · rename_i heq
            exact SameTables.trans (attempt_ok_sameTables heq) (ih _ _)
          · exact SameTables.refl db
        · exact ih _ _
      · exact ih _ _
    · split
      · rename_i heq
        exact SameTables.trans (attempt_ok_sameTables heq) (ih _ _)
      · exact SameTables.refl db

theorem materialize_single_sameTables (db : DB) (sb : StandingBooking)
    (a b : Day) (stats : Stats) :
    SameTables (materialize_single_standing_booking db sb a b stats).1 db := by
  unfold materialize_single_standing_booking
  split
  · exact SameTables.refl db
  · split
    · exact SameTables.refl db
    · exact materializeSessionList_sameTables sb _ db stats

theorem materializeBookingList_sameTables (a b : Day) :
    ∀ (bs : List StandingBooking) (db : DB) (stats : Stats),
      SameTables (materializeBookingList a b db stats bs).1 db := by
  intro bs
  induction bs with
  | nil => intro db stats; exact SameTables.refl db
  | cons sb rest ih =>
    intro db stats
    simp only [materializeBookingList]
    rcases hE : materialize_single_standing_booking db sb a b
      { stats with processed_bookings := stats.processed_bookings + 1 } with
      ⟨db2, stats2, err2⟩
    have h1 := materialize_single_sameTables db sb a b
      { stats with processed_bookings := stats.processed_bookings + 1 }
    rw [hE] at h1
    cases err2 <;> exact SameTables.trans h1 (ih _ _)

theorem materializeSessionList_activeCount_le {sb : StandingBooking}
    (hseat : optTruthy sb.seat_id = false) :
    ∀ (ss : List ClassSession) (db : DB) (stats : Stats) (X : Nat) (s : ClassSession),
      db.sessions.filter (fun x => x.id == X) = [s] →
      activeReservationCount (materializeSessionList sb db stats ss).1 X ≤
        max s.capacity (activeReservationCount db X) := by
  intro ss
  induction ss with
  | nil =>
    intro db stats X s hs
    exact le_max_right _ _
  | cons c rest ih =>
    intro db stats X s hs
    simp only [materializeSessionList]
    split
    · split
      · split
        · split
          · rename_i heq
            have hframe := attempt_ok_sameTables heq
            have hcap := attempt_ok_activeCount_le hseat heq hs
            have hs' := hframe.1 ▸ hs
            exact max_chain hcap (ih _ _ X s hs')
          · exact le_max_right _ _
        · exact ih _ _ X s hs
      · exact ih _ _ X s hs
    · split
      · rename_i heq
        have hframe := attempt_ok_sameTables heq
        have hcap := attempt_ok_activeCount_le hseat heq hs
        have hs' := hframe.1 ▸ hs
        exact max_chain hcap (ih _ _ X s hs')
      · exact le_max_right _ _

theorem materialize_single_activeCount_le {sb : StandingBooking}
    (hseat : optTruthy sb.seat_id = false) (db : DB) (a b : Day) (stats : Stats)
    {X : Nat} {s : ClassSession}
    (hs : db.sessions.filter (fun x => x.id == X) = [s]) :
    activeReservationCount (materialize_single_standing_booking db sb a b stats).1 X ≤
      max s.capacity (activeReservationCount db X) := by
  unfold materialize_single_standing_booking
  split
  · exact le_max_right _ _
  · split
    · exact le_max_right _ _
    · exact materializeSessionList_activeCount_le hseat _ db stats X s hs

theorem materializeBookingList_activeCount_le (a b : Day) :
    ∀ (bs : List StandingBooking) (db : DB) (stats : Stats) (X : Nat) (s : ClassSession),
      (∀ sb ∈ bs, optTruthy sb.seat_id = false) →
      db.sessions.filter (fun x => x.id == X) = [s] →
      activeReservationCount (materializeBookingList a b db stats bs).1 X ≤
        max s.capacity (activeReservationCount db X) := by
  intro bs
  induction bs with
  | nil =>
    intro db stats X s _ hs
    exact le_max_right _ _
  | cons sb rest ih =>
    intro db stats X s hseats hs
    simp only [materializeBookingList]
    rcases hE : materialize_single_standing_booking db sb a b
      { stats with processed_bookings := stats.processed_bookings + 1 } with
      ⟨db2, stats2, err2⟩
    have hseat := hseats sb (List.mem_cons_self sb rest)
    have h1 := materialize_single_activeCount_le hseat db a b
      { stats with processed_bookings := stats.processed_bookings + 1 } hs
    have hframe := materialize_single_sameTables db sb a b
      { stats with processed_bookings := stats.processed_bookings + 1 }
    rw [hE] at h1 hframe
    have hs' := hframe.1 ▸ hs
    have hrest : ∀ x ∈ rest, optTruthy x.seat_id = false := fun x hx =>
      hseats x (List.mem_cons_of_mem sb hx)
    cases err2 <;> exact max_chain h1 (ih _ _ X s hrest hs')

/-- C4 — counterexample to the claim as stated.  The capacity check
counts only `reserved` / `checked_in` rows, not all non-canceled ones: a
capacity-1 session holding a `no_show` reservation still accepts a new
reservation from a seatless standing booking (the claim predicts a
`skipped_no_capacity` skip, since the non-canceled count already equals
capacity), leaving 2 non-canceled reservations on a capacity-1
session. -/
theorem C4_counterexample :
    let res := materialize_standing_bookings dbC4 0 8 (some 0) none none
    claimNonCanceledCount dbC4 2 = 1 ∧ dbC4.sessions.map (fun s => s.capacity) = [1] ∧
      claimNonCanceledCount res.1 2 = 2 ∧ res.2.skipped_no_capacity = 0 ∧
      res.2.created_reservations = 1 := by
  decide

/-- C4 — amended.  The capacity rule uses slot-holding reservations
(statuses `reserved` / `checked_in`), not all non-canceled ones: (1) a
seatless reservation attempt with no existing `(session, person)` row
skips with `skipped_no_capacity` exactly when the slot-holding count has
reached the session capacity, and creates the reservation otherwise; (2)
consequently, when every standing booking is seatless, a windowed
materialization run never pushes a session's slot-holding count beyond
`max capacity (initial count)`.  (The claim's non-canceled version —
including `waitlisted` / `no_show` — is refuted by
`C4_counterexample`.) -/
theorem C4_capacity_invariant :
    (∀ (db : DB) (sb : StandingBooking) (sid : Nat) (stats : Stats) (src : String)
       (s : ClassSession),
      optTruthy sb.seat_id = false →
      reservationsForPair db sid sb.person_id = [] →
      db.sessions.filter (fun x => x.id == sid) = [s] →
      create_reservation_if_possible db sb sid stats src =
        (if activeReservationCount db sid ≥ s.capacity then
          .ok (db, { stats with skipped_no_capacity := stats.skipped_no_capacity + 1 })
        else
          .ok (insertReservation db sb sid src,
               { stats with created_reservations := stats.created_reservations + 1 }))) ∧
    (∀ (db : DB) (today : Day) (w : Nat) (sd : Option Day) (subf tf : Option Nat)
       (X : Nat) (s : ClassSession),
      (∀ sb ∈ db.standing_bookings, optTruthy sb.seat_id = false) →
      db.sessions.filter (fun x => x.id == X) = [s] →
      activeReservationCount (materialize_standing_bookings db today w sd subf tf).1 X ≤
        max s.capacity (activeReservationCount db X)) := by
  constructor
  · intro db sb sid stats src s hseat hnopair hs
    unfold create_reservation_if_possible
    rw [hnopair, hs, hseat]
    rfl
  · intro db today w sd subf tf X s hseats hs
    unfold materialize_standing_bookings
    apply materializeBookingList_activeCount_le
    · intro sb hsb
      exact hseats sb (List.mem_of_mem_filter hsb)
    · exact hs

/-- C4 — witness for the amended theorem: a seatless booking against a
full capacity-1 session (one `reserved` row) is skipped with
`skipped_no_capacity`, and a windowed run over `dbC4` keeps the
slot-holding count within the bound. -/
theorem C4_witness :
    (create_reservation_if_possible
        { emptyDB with sessions := [{ sessA with capacity := 1 }],
                       reservations := [⟨4, 2, 2, none, "reserved", "manual"⟩] }
        sbA 2 Stats.empty "standing" =
      .ok ({ emptyDB with sessions := [{ sessA with capacity := 1 }],
                          reservations := [⟨4, 2, 2, none, "reserved", "manual"⟩] },
            { Stats.empty with skipped_no_capacity := 1 })) ∧
    activeReservationCount (materialize_standing_bookings dbC4 0 8 (some 0) none none).1 2 ≤
      max 1 (activeReservationCount dbC4 2) := by
  constructor
  · have h := C4_capacity_invariant.1
      { emptyDB with sessions := [{ sessA with capacity := 1 }],
                     reservations := [⟨4, 2, 2, none, "reserved", "manual"⟩] }
      sbA 2 Stats.empty "standing" { sessA with capacity := 1 }
      (by decide) (by decide) (by decide)
    rw [h]
    rfl
  · have h := C4_capacity_invariant.2 dbC4 0 8 (some 0) none none 2
      { sessA with capacity := 1 } (by decide) (by decide)
    exact h

theorem dateOf_combine (d m : Int) (h0 : 0 ≤ m) (h1 : m < 1440) :
    dateOf (combine d m) = d := by
  unfold dateOf combine
  rw [Int.fdiv_eq_ediv _ (by norm_num : (0:Int) ≤ 1440)]
  change ((d * 1440 + m) / 1440 : Int) = (d : Int)
  omega

theorem dateMatchesTemplate_eq_sunday (t : ClassTemplate) (d : Day)
    (h0 : 0 ≤ t.weekday) (h6 : t.weekday ≤ 6) :
    dateMatchesTemplate t d = (sundayWeekday d == t.weekday) := by
  unfold dateMatchesTemplate sundayWeekday pyWeekday
  have hp0 : 0 ≤ Int.emod d 7 := Int.emod_nonneg d (by norm_num)
  have hp6 : Int.emod d 7 < 7 := Int.emod_lt_of_pos d (by norm_num)
  generalize hp : Int.emod d 7 = p at *
  generalize hwk : t.weekday = w at *
  interval_cases p <;> interval_cases w <;> decide

theorem expanderCollectGo_spec (db : DB) (t : ClassTemplate)
    (huniq : ∀ d : Day, (sessionsOfTemplateOnDate db t.id d).length ≤ 1) :
    ∀ (n : Nat) (current : Int),
      expanderCollectGo db t n current =
        .ok ((rangeDaysGo n current).filter fun d =>
          dateMatchesTemplate t d && (sessionsOfTemplateOnDate db t.id d).isEmpty) := by
  intro n
  induction n with
  | zero => intro current; rfl
  | succ k ih =>
    intro current
    rw [expanderCollectGo, rangeDaysGo]
    rw [ih (current + 1)]
    by_cases hm : dateMatchesTemplate t current
    · cases hlist : sessionsOfTemplateOnDate db t.id current with
      | nil =>
        simp [hm, hlist, scalarOneOrNone, List.filter_cons]
      | cons a rest =>
        have hlen := huniq current
        rw [hlist] at hlen
        have hrest : rest = [] := by
          cases rest with
          | nil => rfl
          | cons b r2 => simp at hlen
        subst hrest
        simp [hm, hlist, scalarOneOrNone, List.filter_cons]
    · simp [hm, List.filter_cons]

theorem expanderCollectDays_spec (db : DB) (t : ClassTemplate)
    (huniq : ∀ d : Day, (sessionsOfTemplateOnDate db t.id d).length ≤ 1)
    (current endDate : Int) :
    expanderCollectDays db t current endDate =
      .ok ((rangeDays current endDate).filter fun d =>
        dateMatchesTemplate t d && (sessionsOfTemplateOnDate db t.id d).isEmpty) := by
  unfold expanderCollectDays rangeDays
  exact expanderCollectGo_spec db t huniq _ current

theorem assignSessionIds_shape (t : ClassTemplate)
    (h0 : 0 ≤ t.start_time_local) (h1 : t.start_time_local < 1440) :
    ∀ (days : List Day) (n : Nat),
      (assignSessionIds t n days).map (fun s =>
        (dateOf s.start_at, s.template_id, s.start_at, s.end_at, s.capacity,
          s.status)) =
      days.map (fun d =>
        (d, some t.id, combine d t.start_time_local,
          combine d t.start_time_local + (t.default_duration_min : Int),
          natOrElse t.default_capacity 20, "scheduled")) := by
  intro days
  induction days with
  | nil => intro n; rfl
  | cons d rest ih =>
    intro n
    simp only [assignSessionIds, expanderSession, List.map_cons, ih]
    rw [dateOf_combine d t.start_time_local h0 h1]

/-- C7 — amended.  For an active template found by id, with a stored
weekday in 0..6, a valid local start time and at most one pre-existing
session per date, the expander creates exactly one session per calendar
date of the range whose Sunday-based weekday equals the template weekday
and that has no pre-existing `(template, date)` session; each created
session has `start_at = combine(date, start_time_local)`,
`end_at = start_at + duration`, status `scheduled` and capacity
`default_capacity` when that is non-null and non-zero, else 20.  (The
claim's "20 only when null" is refuted by `C7_counterexample`:
`default_capacity = 0` also falls back to 20.) -/
theorem C7_expander_weekday_correctness (tx : Tx) (template_id : Nat)
    (t : ClassTemplate) (lo hi : Day)
    (hfind : tx.pending.templates.filter (fun x => x.id == template_id) = [t])
    (hact : t.is_active = true)
    (hw0 : 0 ≤ t.weekday) (hw6 : t.weekday ≤ 6)
    (ht0 : 0 ≤ t.start_time_local) (ht1 : t.start_time_local < 1440)
    (huniq : ∀ d : Day, (sessionsOfTemplateOnDate tx.pending t.id d).length ≤ 1) :
    ∃ tx' created,
      generate_sessions_from_template tx template_id lo hi = .ok (tx', created) ∧
      created.map (fun s =>
          (dateOf s.start_at, s.template_id, s.start_at, s.end_at, s.capacity,
            s.status)) =
        ((rangeDays lo hi).filter (fun d =>
            sundayWeekday d == t.weekday &&
              (sessionsOfTemplateOnDate tx.pending t.id d).isEmpty)).map
          (fun d =>
            (d, some t.id, combine d t.start_time_local,
              combine d t.start_time_local + (t.default_duration_min : Int),
              natOrElse t.default_capacity 20, "scheduled")) := by
  have hdays := expanderCollectDays_spec tx.pending t huniq lo hi
  have hfilter :
      (rangeDays lo hi).filter (fun d =>
          dateMatchesTemplate t d &&
            (sessionsOfTemplateOnDate tx.pending t.id d).isEmpty) =
        (rangeDays lo hi).filter (fun d =>
          sundayWeekday d == t.weekday &&
            (sessionsOfTemplateOnDate tx.pending t.id d).isEmpty) := by
    apply List.filter_congr
    intro d _
    rw [dateMatchesTemplate_eq_sunday t d hw0 hw6]
  unfold generate_sessions_from_template
  dsimp only
  rw [hfind]
  simp only [scalarOneOrNone, hact, Bool.not_true, Bool.false_eq_true, if_false]
  rw [hdays, hfilter]
  set days := (rangeDays lo hi).filter (fun d =>
    sundayWeekday d == t.weekday &&
      (sessionsOfTemplateOnDate tx.pending t.id d).isEmpty) with hdaysdef
  by_cases hempty : (assignSessionIds t tx.pending.next_id days).isEmpty
  · refine ⟨tx, [], by simp [hempty], ?_⟩
    have : days = [] := by
      cases hdd : days with
      | nil => rfl
      | cons a r => rw [hdd] at hempty; simp [assignSessionIds] at hempty
    rw [this]
    rfl
  · refine ⟨Tx.commit { tx with pending := { tx.pending with
        sessions := tx.pending.sessions ++ assignSessionIds t tx.pending.next_id days,
        next_id := tx.pending.next_id +
          (assignSessionIds t tx.pending.next_id days).length } },
      assignSessionIds t tx.pending.next_id days, ?_, ?_⟩
    · simp [hempty]
    · exact assignSessionIds_shape t ht0 ht1 days tx.pending.next_id

/-- C7 — counterexample to the claim as stated: `default_capacity or 20`
in Python maps a stored capacity of `0` to the fallback 20, while the
claim prescribes the fallback only when the capacity is null.  The
created session has capacity 20, not 0. -/
theorem C7_counterexample :
    (generate_sessions_from_template (Tx.start dbC7) 1 1 1).map
        (fun p => p.2.map (fun s => s.capacity)) = .ok [20] ∧
      dbC7.templates.map (fun t => t.default_capacity) = [some 0] := by
  decide

/-- C7 — witness: expanding `tmplA` (weekday 2 = Tuesday, 18:00, 60 min,
capacity 10) over days 0-13 against an empty session table. -/
theorem C7_witness :
    ∃ tx' created,
      generate_sessions_from_template (Tx.start dbC7w) 1 0 13 = .ok (tx', created) ∧
      created.map (fun s =>
          (dateOf s.start_at, s.template_id, s.start_at, s.end_at, s.capacity,
            s.status)) =
        ((rangeDays 0 13).filter (fun d =>
            sundayWeekday d == tmplA.weekday &&
              (sessionsOfTemplateOnDate (Tx.start dbC7w).pending tmplA.id d).isEmpty)).map
          (fun d =>
            (d, some tmplA.id, combine d tmplA.start_time_local,
              combine d tmplA.start_time_local + (tmplA.default_duration_min : Int),
              natOrElse tmplA.default_capacity 20, "scheduled")) :=
  C7_expander_weekday_correctness (Tx.start dbC7w) 1 tmplA 0 13 (by decide)
    (by decide) (by decide) (by decide) (by decide) (by decide)
    (fun _ => Nat.zero_le 1)

/-- C3 — counterexample to the claim as stated.  The expander
(`generate_sessions_from_template`) creates a session on a date covered
by an active standing booking of its template, yet after the call no
reservation exists, neither pending nor committed: the expander does not
trigger single-session materialization. -/
theorem C3_counterexample :
    (generate_sessions_from_template (Tx.start dbC3) 1 1 1).map
        (fun p => (p.2.length, p.1.pending.reservations, p.1.committed.reservations)) =
      .ok (1, [], []) ∧
      dbC3.standing_bookings.map (fun sb => (sb.template_id, sb.status)) =
        [(1, "active")] ∧
      sbA.start_date ≤ 1 ∧ (1 : Int) ≤ sbA.end_date := by
  decide

/-- C3 — amended.  The expander creates sessions without triggering
materialization: a successful `generate_sessions_from_template` call
leaves the reservations table exactly as it found it, for every input.
Synchronous single-session materialization is triggered only by the
single ad-hoc creation path `create_class_session`, as the second
conjunct shows on a concrete state: creating the same session through
`create_class_session` immediately produces (and commits) the standing
booking's reservation. -/
theorem C3_expander_no_materialization :
    (∀ (tx : Tx) (tid : Nat) (lo hi : Day) (tx' : Tx) (created : List ClassSession),
      generate_sessions_from_template tx tid lo hi = .ok (tx', created) →
      tx'.pending.reservations = tx.pending.reservations) ∧
    (let res := create_class_session (Tx.start dbC3) (some 1) 1 1 (combine 1 1080)
        (combine 1 1140) 10 none "scheduled"
     res.1.pending.reservations.map (fun r => (r.session_id, r.person_id, r.source)) =
        [(100, 1, "standing")] ∧
       res.1.committed.reservations.map (fun r => (r.session_id, r.person_id, r.source)) =
        [(100, 1, "standing")]) := by
  constructor
  · intro tx tid lo hi tx' created h
    unfold generate_sessions_from_template at h
    dsimp only at h
    repeat' split at h
    all_goals simp only [Except.ok.injEq, Prod.mk.injEq, reduceCtorEq] at h
    all_goals obtain ⟨h1, h2⟩ := h
    all_goals subst h1
    all_goals simp [Tx.commit]
  · decide

/-- C3 — witness: the first conjunct of the amended theorem applied to
the concrete expander run of `C3_counterexample`. -/
theorem C3_witness :
    (generate_sessions_from_template (Tx.start dbC3) 1 1 1).map
        (fun p => p.1.pending.reservations) = .ok dbC3.reservations := by
  rcases hE : generate_sessions_from_template (Tx.start dbC3) 1 1 1 with e | p
  · have hfalse : exceptIsError (generate_sessions_from_template (Tx.start dbC3) 1 1 1) =
        false := by decide
    rw [hE] at hfalse
    simp [exceptIsError] at hfalse
  · have h := C3_expander_no_materialization.1 (Tx.start dbC3) 1 1 1 p.1 p.2
      (by rw [hE])
    simp [Except.map, h, Tx.start]

theorem align_date_to_weekday_ge (d : Day) (w : Option Int) :
    d ≤ align_date_to_weekday d w := by
  unfold align_date_to_weekday
  cases w with
  | none => exact le_refl d
  | some v =>
    dsimp only
    exact le_add_of_nonneg_right (Int.emod_nonneg _ (by norm_num))

theorem groupBookingLoop_dates_ge (sub : MembershipSubscription)
    (seat_id : Option Nat) (ms me : Day) :
    ∀ (templates : List ClassTemplate) (db : DB) (p : Nat × Day),
      p ∈ (groupBookingLoop sub seat_id ms me db templates).2.2.2 → ms ≤ p.2 := by
  intro templates
  induction templates with
  | nil => intro db p hp; simp [groupBookingLoop] at hp
  | cons t rest ih =>
    intro db p hp
    simp only [groupBookingLoop] at hp
    split at hp
    · exact ih db p hp
    · split at hp
      · rename_i db' sb heq
        simp only [List.mem_cons] at hp
        rcases hp with rfl | hp
        · exact align_date_to_weekday_ge ms (some t.weekday)
        · exact ih db' p hp
      · exact ih db p hp

theorem listMinD_ge (m : Day) :
    ∀ (l : List Day) (d : Day), m ≤ d → (∀ x ∈ l, m ≤ x) → m ≤ listMinD l d := by
  intro l
  induction l with
  | nil => intro d hd _; exact hd
  | cons a rest ih =>
    intro d hd hl
    have ha : m ≤ a := hl a (List.mem_cons_self a rest)
    have hrest : m ≤ listMinD rest a :=
      ih a ha (fun x hx => hl x (List.mem_cons_of_mem a hx))
    exact le_min ha hrest

theorem create_standing_bookings_for_group_dates_ge (db : DB)
    (sub : MembershipSubscription) (tid : Nat) (sid : Option Nat)
    {r : List Nat × List Nat × List (Nat × Day)}
    (h : (create_standing_bookings_for_group db sub tid sid).2 = .ok r) :
    ∀ p ∈ r.2.2, dateOf sub.start_at ≤ p.2 := by
  unfold create_standing_bookings_for_group at h
  split at h
  · simp at h
  · split at h
    · simp only [Except.ok.injEq] at h
      subst h
      intro p hp
      simp at hp
    · simp only [Except.ok.injEq] at h
      subst h
      intro p hp
      exact groupBookingLoop_dates_ge sub sid _ _ _ db p hp

/-- C8 — counterexample to the claim as stated.  For a 3-day fixed-slot
plan on a subscription starting Monday (day 0) with a Wednesday
template, the aligned standing-booking start is day 2, so the claim's
window end ("duration_value days counted from the earliest aligned
start") is day 4 (inclusive span) or day 5 (start + 3); the code instead
counts from the subscription start date and produces day 2. -/
theorem C8_counterexample :
    align_date_to_weekday (dateOf subC8.start_at) (some 3) = 2 ∧
      (handle_fixed_timeslot_effects (Tx.start dbC8) subC8 planC8 1 none true 0).2.map
        (fun p => p.2.window_end) = .ok (some 2) ∧
      min (dateOf subC8.end_at) (2 + planC8.duration_value - 1) = 4 ∧
      min (dateOf subC8.end_at) (2 + planC8.duration_value) = 5 := by
  decide

/-- C8 — amended.  The coverage window of
`_handle_fixed_timeslot_effects` is computed from
`window_start = min(subscription start date, earliest aligned start) =
subscription start date` (aligned starts are never earlier than the
subscription start), not from the earliest aligned start: without a
window-days override, for day-unit plans with positive duration the
window end is `min(subscription end date, subscription start date +
duration_value - 1)`; for week-unit plans it is `min(subscription end
date, subscription start date + duration_value * 7 - 1)`; for every
other duration unit (month, year, ...) it is the subscription end
date. -/
theorem C8_coverage_window_bound (tx : Tx) (sub : MembershipSubscription)
    (plan : MembershipPlan) (tid : Nat) (sid : Option Nat) (am : Bool)
    (today : Day) (primary : Option Nat) (stats : Stats)
    (hov : plan.standing_window_days = none)
    (h : (handle_fixed_timeslot_effects tx sub plan tid sid am today).2 =
      .ok (primary, stats)) :
    (plan.duration_unit = "day" → 0 < plan.duration_value →
      stats.window_end = some (min (dateOf sub.end_at)
        (dateOf sub.start_at + (plan.duration_value - 1)))) ∧
    (plan.duration_unit = "week" → 0 < plan.duration_value →
      stats.window_end = some (min (dateOf sub.end_at)
        (dateOf sub.start_at + (plan.duration_value * 7 - 1)))) ∧
    (plan.duration_unit ≠ "day" → plan.duration_unit ≠ "week" →
      stats.window_end = some (dateOf sub.end_at)) := by
  have hwe : stats.window_end = some (calculate_window_end_for_plan plan
      (dateOf sub.start_at) (dateOf sub.end_at)) := by
    unfold handle_fixed_timeslot_effects at h
    rcases hG : (create_standing_bookings_for_group tx.pending sub tid sid).2 with
      e | r
    · rw [show create_standing_bookings_for_group tx.pending sub tid sid =
        ((create_standing_bookings_for_group tx.pending sub tid sid).1, .error e) from
          by rw [← hG]] at h
      simp at h
    · have hge := create_standing_bookings_for_group_dates_ge tx.pending sub tid sid hG
      rw [show create_standing_bookings_for_group tx.pending sub tid sid =
        ((create_standing_bookings_for_group tx.pending sub tid sid).1, .ok r) from
          by rw [← hG]] at h
      obtain ⟨ids, tids, dates⟩ := r
      have hmin : min (dateOf sub.start_at)
          (listMinD (dates.map Prod.snd) (dateOf sub.start_at)) =
            dateOf sub.start_at := by
        apply min_eq_left
        apply listMinD_ge
        · exact le_refl _
        · intro x hx
          obtain ⟨p, hp, rfl⟩ := List.mem_map.mp hx
          exact hge p hp
      dsimp only at h
      rw [hmin] at h
      split at h <;>
        (simp only [Except.ok.injEq, Prod.mk.injEq] at h
         obtain ⟨h1, h2⟩ := h
         subst h2
         rfl)
  refine ⟨?_, ?_, ?_⟩
  · intro hu hv
    rw [hwe]
    unfold calculate_window_end_for_plan get_plan_window_override
    rw [hov, hu]
    have hvne : (plan.duration_value != 0) = true := by
      simp only [bne_iff_ne, ne_eq]
      omega
    simp [hvne, hv]
  · intro hu hv
    rw [hwe]
    unfold calculate_window_end_for_plan get_plan_window_override
    rw [hov, hu]
    have hvne : (plan.duration_value != 0) = true := by
      simp only [bne_iff_ne, ne_eq]
      omega
    simp [hvne, hv]
  · intro hu hv
    rw [hwe]
    unfold calculate_window_end_for_plan get_plan_window_override
    rw [hov]
    have h1 : (plan.duration_unit == "day") = false := by
      simp [hu]
    have h2 : (plan.duration_unit == "week") = false := by
      simp [hv]
    simp [h1, h2]

/-- C8 — witness: the amended theorem applied to the concrete day-unit
scenario of `C8_counterexample`, giving window end
`min(9, 0 + 3 - 1) = 2`. -/
theorem C8_witness :
    ∃ primary stats,
      (handle_fixed_timeslot_effects (Tx.start dbC8) subC8 planC8 1 none true 0).2 =
        .ok (primary, stats) ∧
      stats.window_end = some (min (dateOf subC8.end_at)
        (dateOf subC8.start_at + (planC8.duration_value - 1))) := by
  rcases hE : (handle_fixed_timeslot_effects (Tx.start dbC8) subC8 planC8 1 none
    true 0).2 with e | p
  · have hfalse : exceptIsError (handle_fixed_timeslot_effects (Tx.start dbC8)
        subC8 planC8 1 none true 0).2 = false := by decide
    rw [hE] at hfalse
    simp [exceptIsError] at hfalse
  · obtain ⟨primary, stats⟩ := p
    refine ⟨primary, stats, rfl, ?_⟩
    exact (C8_coverage_window_bound (Tx.start dbC8) subC8 planC8 1 none true 0
      primary stats (by decide) hE).1 rfl (by decide)

theorem scalarOneOrNone_filter_cases {α : Type} {p : α → Bool} {l : List α}
    (hlen : (l.filter p).length ≤ 1) :
    (scalarOneOrNone (l.filter p) = .ok none ∧ ∀ x ∈ l, ¬ p x = true) ∨
    (∃ a, scalarOneOrNone (l.filter p) = .ok (some a) ∧ a ∈ l ∧ p a = true ∧
      ∀ x ∈ l, p x = true → x = a) := by
  cases hf : l.filter p with
  | nil =>
    left
    refine ⟨rfl, ?_⟩
    intro x hx hp
    have : x ∈ l.filter p := List.mem_filter.mpr ⟨hx, hp⟩
    rw [hf] at this
    simp at this
  | cons a rest =>
    cases rest with
    | nil =>
      right
      have ha := List.mem_filter.mp (hf ▸ List.mem_cons_self a [])
      refine ⟨a, rfl, ha.1, ha.2, ?_⟩
      intro x hx hp
      have : x ∈ l.filter p := List.mem_filter.mpr ⟨hx, hp⟩
      rw [hf] at this
      simpa using this
    | cons b r2 =>
      exfalso
      rw [hf] at hlen
      simp at hlen

/-- C9 — confirmed.  Under row-uniqueness of the queried tables, the
Registry create path raises a (recoverable) validation error exactly
when one of the claim's conditions holds — no active subscription of the
person, missing or inactive template, invalid seat, duplicate active
`(person, template)` booking, or the seat held by a different person's
active booking on the template — and when none holds it appends an
active standing booking carrying exactly the given fields. -/
theorem C9_registry_create_validation (db : DB)
    (person_id subscription_id template_id : Nat) (start_date end_date : Day)
    (seat_id : Option Nat)
    (h1 : (db.subscriptions.filter fun s => s.id == subscription_id &&
      s.person_id == person_id && s.status == "active").length ≤ 1)
    (h2 : (db.templates.filter fun t => t.id == template_id).length ≤ 1)
    (h3 : ∀ venue : Nat, (db.seats.filter fun s => some s.id == seat_id &&
      s.venue_id == venue && s.is_active).length ≤ 1)
    (h4 : (db.standing_bookings.filter fun sb => sb.person_id == person_id &&
      sb.template_id == template_id && sb.status == "active").length ≤ 1)
    (h5 : (db.standing_bookings.filter fun sb => sb.template_id == template_id &&
      sb.seat_id == seat_id && sb.status == "active" &&
      sb.person_id != person_id).length ≤ 1) :
    (exceptIsError (create_standing_booking db person_id subscription_id
        template_id start_date end_date seat_id) = true ↔
      registryCreateViolation db person_id subscription_id template_id seat_id) ∧
    (∀ (db' : DB) (sb : StandingBooking),
      create_standing_booking db person_id subscription_id template_id start_date
          end_date seat_id = .ok (db', sb) →
      db'.standing_bookings = db.standing_bookings ++ [sb] ∧
      sb.person_id = person_id ∧ sb.subscription_id = subscription_id ∧
      sb.template_id = template_id ∧ sb.seat_id = seat_id ∧
      sb.start_date = start_date ∧ sb.end_date = end_date ∧
      sb.status = "active") := by
  unfold create_standing_booking
  rcases scalarOneOrNone_filter_cases h1 with ⟨hq1, hall1⟩ | ⟨s, hq1, hmem1, hp1, -⟩
  · rw [hq1]
    constructor
    · constructor
      · intro _
        left
        rintro ⟨x, hx, hid, hperson, hstatus⟩
        exact hall1 x hx (by simp [hid, hperson, hstatus])
      · intro _
        rfl
    · intro db' sb h
      simp at h
  · rw [hq1]
    dsimp only
    have hnc1 : ∃ x ∈ db.subscriptions, x.id = subscription_id ∧
        x.person_id = person_id ∧ x.status = "active" := by
      refine ⟨s, hmem1, ?_⟩
      simpa [Bool.and_eq_true, beq_iff_eq, and_assoc] using hp1
    rcases scalarOneOrNone_filter_cases h2 with ⟨hq2, hall2⟩ |
      ⟨t, hq2, hmem2, hp2, huniq2⟩
    · rw [hq2]
      constructor
      · constructor
        · intro _
          right; left
          rintro ⟨x, hx, hid⟩
          exact hall2 x hx (by simp [hid])
        · intro _
          rfl
      · intro db' sb h
        simp at h
    · rw [hq2]
      dsimp only
      have htid : t.id = template_id := by simpa using hp2
      have huniq2' : ∀ x ∈ db.templates, x.id = template_id → x = t := by
        intro x hx hxid
        exact huniq2 x hx (by simp [hxid])
      by_cases hact : t.is_active = true
      · rw [hact]
        simp only [Bool.not_true, Bool.false_eq_true, if_false]
        by_cases hseat : optTruthy seat_id = true
        · rw [hseat]
          simp only [if_true]
          rcases scalarOneOrNone_filter_cases (h3 t.venue_id) with ⟨hq3, hall3⟩ |
            ⟨st, hq3, hmem3, hp3, -⟩
          · rw [hq3]
            constructor
            · constructor
              · intro _
                right; right; right; left
                refine ⟨hseat, t, hmem2, htid, ?_⟩
                rintro ⟨x, hx, hxid, hxvenue, hxact⟩
                exact hall3 x hx (by simp [hxid, hxvenue, hxact])
              · intro _
                rfl
            · intro db' sb h
              simp at h
          · rw [hq3]
            dsimp only
            have hnc3 : ∃ x ∈ db.seats, some x.id = seat_id ∧
                x.venue_id = t.venue_id ∧ x.is_active = true := by
              refine ⟨st, hmem3, ?_⟩
              simpa [Bool.and_eq_true, beq_iff_eq, and_assoc] using hp3
            rcases scalarOneOrNone_filter_cases h4 with ⟨hq4, hall4⟩ |
              ⟨ex, hq4, hmem4, hp4, -⟩
            · rw [hq4]
              dsimp only
              rcases scalarOneOrNone_filter_cases h5 with ⟨hq5, hall5⟩ |
                ⟨tk, hq5, hmem5, hp5, -⟩
              · rw [hq5]
                dsimp only
                constructor
                · constructor
                  · intro hfalse
                    simp [exceptIsError] at hfalse
                  · intro hDall
                    exfalso
                    rcases hDall with (hD | hD | hD | hD | hD | hD)
                    · exact absurd hnc1 hD
                    · exact absurd ⟨t, hmem2, htid⟩ hD
                    · obtain ⟨x, hx, hxid, hxinact⟩ := hD
                      rw [huniq2' x hx hxid] at hxinact
                      rw [hact] at hxinact
                      simp at hxinact
                    · obtain ⟨-, x, hx, hxid, hno⟩ := hD
                      rw [huniq2' x hx hxid] at hno
                      exact absurd hnc3 hno
                    · obtain ⟨x, hx, hxp, hxt, hxs⟩ := hD
                      exact hall4 x hx (by simp [hxp, hxt, hxs])
                    · obtain ⟨-, x, hx, hxt, hxseat, hxs, hxp⟩ := hD
                      exact hall5 x hx (by simp [hxt, hxseat, hxs, hxp])
                · intro db' sb h
                  simp only [Except.ok.injEq, Prod.mk.injEq] at h
                  obtain ⟨hdb, hsb⟩ := h
                  subst hdb
                  subst hsb
                  exact ⟨rfl, rfl, rfl, rfl, rfl, rfl, rfl, rfl⟩
              · rw [hq5]
                dsimp only
                have hp5' : tk.template_id = template_id ∧ tk.seat_id = seat_id ∧
                    tk.status = "active" ∧ tk.person_id ≠ person_id := by
                  simpa [Bool.and_eq_true, beq_iff_eq, bne_iff_ne, and_assoc]
                    using hp5
                constructor
                · constructor
                  · intro _
                    right; right; right; right; right
                    exact ⟨hseat, tk, hmem5, hp5'.1, hp5'.2.1, hp5'.2.2.1,
                      hp5'.2.2.2⟩
                  · intro _
                    rfl
                · intro db' sb h
                  simp at h
            · rw [hq4]
              dsimp only
              have hp4' : ex.person_id = person_id ∧ ex.template_id = template_id ∧
                  ex.status = "active" := by
                simpa [Bool.and_eq_true, beq_iff_eq, and_assoc] using hp4
              constructor
              · constructor
                · intro _
                  right; right; right; right; left
                  exact ⟨ex, hmem4, hp4'⟩
                · intro _
                  rfl
              · intro db' sb h
                simp at h
        · simp only [Bool.not_eq_true] at hseat
          rw [hseat]
          simp only [Bool.false_eq_true, if_false]
          rcases scalarOneOrNone_filter_cases h4 with ⟨hq4, hall4⟩ |
            ⟨ex, hq4, hmem4, hp4, -⟩
          · rw [hq4]
            dsimp only
            constructor
            · constructor
              · intro hfalse
                simp [exceptIsError] at hfalse
              · intro hDall
                exfalso
                rcases hDall with (hD | hD | hD | hD | hD | hD)
                · exact absurd hnc1 hD
                · exact absurd ⟨t, hmem2, htid⟩ hD
                · obtain ⟨x, hx, hxid, hxinact⟩ := hD
                  rw [huniq2' x hx hxid] at hxinact
                  rw [hact] at hxinact
                  simp at hxinact
                · rw [hseat] at hD
                  simp at hD
                · obtain ⟨x, hx, hxp, hxt, hxs⟩ := hD
                  exact hall4 x hx (by simp [hxp, hxt, hxs])
                · rw [hseat] at hD
                  simp at hD
            · intro db' sb h
              simp only [Except.ok.injEq, Prod.mk.injEq] at h
              obtain ⟨hdb, hsb⟩ := h
              subst hdb
              subst hsb
              exact ⟨rfl, rfl, rfl, rfl, rfl, rfl, rfl, rfl⟩
          · rw [hq4]
            dsimp only
            have hp4' : ex.person_id = person_id ∧ ex.template_id = template_id ∧
                ex.status = "active" := by
              simpa [Bool.and_eq_true, beq_iff_eq, and_assoc] using hp4
            constructor
            · constructor
              · intro _
                right; right; right; right; left
                exact ⟨ex, hmem4, hp4'⟩
              · intro _
                rfl
            · intro db' sb h
              simp at h
      · simp only [Bool.not_eq_true] at hact
        rw [hact]
        simp only [Bool.not_false, if_true]
        constructor
        · constructor
          · intro _
            right; right; left
            exact ⟨t, hmem2, htid, hact⟩
          · intro _
            rfl
        · intro db' sb h
          simp at h

/-- C9 — witness: the specification's seat-conflict scenario.  Creating
a standing booking for person 1 on template 1, seat 5 — while person 2
holds an active standing booking on that `(template, seat)` — raises a
validation error, and the characterization identifies the violated
condition. -/
theorem C9_witness :
    registryCreateViolation dbC9 1 20 1 (some 5) ∧
      exceptIsError (create_standing_booking dbC9 1 20 1 0 30 (some 5)) = true := by
  have herr : exceptIsError (create_standing_booking dbC9 1 20 1 0 30 (some 5)) =
      true := by decide
  have h := C9_registry_create_validation dbC9 1 20 1 0 30 (some 5)
    (by decide) (by decide)
    (fun v => le_trans (List.length_filter_le _ _) (by decide))
    (by decide) (by decide)
  exact ⟨h.1.mp herr, herr⟩

theorem scalarOneOrNone_ok_some_iff {α : Type} (l : List α) (a : α) :
    scalarOneOrNone l = .ok (some a) ↔ l = [a] := by
  cases l with
  | nil => simp [scalarOneOrNone]
  | cons x t =>
    cases t with
    | nil => simp [scalarOneOrNone]
    | cons y t2 => simp [scalarOneOrNone]

theorem attempt_ok_cases {db db' : DB} {sb : StandingBooking} {sid : Nat}
    {stats stats' : Stats} {src : String}
    (h : create_reservation_if_possible db sb sid stats src = .ok (db', stats')) :
    (∃ r, reservationsForPair db sid sb.person_id = [r] ∧ db' = db ∧
      stats' = { stats with skipped_existing := stats.skipped_existing + 1 }) ∨
    (reservationsForPair db sid sb.person_id = [] ∧
      db.sessions.filter (fun x => x.id == sid) = [] ∧ db' = db ∧ stats' = stats) ∨
    (reservationsForPair db sid sb.person_id = [] ∧ optTruthy sb.seat_id = true ∧
      (∃ r, activeSeatReservations db sid sb.seat_id = [r]) ∧ db' = db ∧
      stats' = { stats with skipped_seat_taken := stats.skipped_seat_taken + 1 }) ∨
    (reservationsForPair db sid sb.person_id = [] ∧ optTruthy sb.seat_id = false ∧
      (∃ s, db.sessions.filter (fun x => x.id == sid) = [s] ∧
        s.capacity ≤ activeReservationCount db sid) ∧ db' = db ∧
      stats' = { stats with skipped_no_capacity := stats.skipped_no_capacity + 1 }) ∨
    (reservationsForPair db sid sb.person_id = [] ∧
      db' = insertReservation db sb sid src ∧
      stats' = { stats with
        created_reservations := stats.created_reservations + 1 } ∧
      ((optTruthy sb.seat_id = true ∧
          activeSeatReservations db sid sb.seat_id = []) ∨
        (optTruthy sb.seat_id = false ∧
          ∃ s, db.sessions.filter (fun x => x.id == sid) = [s] ∧
            activeReservationCount db sid < s.capacity))) := by
  unfold create_reservation_if_possible at h
  rcases hq1 : scalarOneOrNone (reservationsForPair db sid sb.person_id) with e1 | o1
  · rw [hq1] at h
    exact absurd h (by simp)
  · rw [hq1] at h
    cases o1 with
    | some r =>
      simp only [Except.ok.injEq, Prod.mk.injEq] at h
      obtain ⟨h1, h2⟩ := h
      exact Or.inl ⟨r, (scalarOneOrNone_ok_some_iff _ r).mp hq1, h1.symm, h2.symm⟩
    | none =>
      rcases hq2 : scalarOneOrNone (db.sessions.filter fun x => x.id == sid) with
        e2 | o2
      · rw [hq2] at h
        exact absurd h (by simp)
      · rw [hq2] at h
        cases o2 with
        | none =>
          simp only [Except.ok.injEq, Prod.mk.injEq] at h
          obtain ⟨h1, h2⟩ := h
          exact Or.inr (Or.inl ⟨(scalarOneOrNone_ok_none_iff _).mp hq1,
            (scalarOneOrNone_ok_none_iff _).mp hq2, h1.symm, h2.symm⟩)
        | some s =>
          by_cases hseat : optTruthy sb.seat_id = true
          · simp only [hseat, if_true] at h
            rcases hq3 : scalarOneOrNone
              (activeSeatReservations db sid sb.seat_id) with e3 | o3
            · rw [hq3] at h
              exact absurd h (by simp)
            · rw [hq3] at h
              cases o3 with
              | some r3 =>
                simp only [Except.ok.injEq, Prod.mk.injEq] at h
                obtain ⟨h1, h2⟩ := h
                exact Or.inr (Or.inr (Or.inl
                  ⟨(scalarOneOrNone_ok_none_iff _).mp hq1, hseat,
                    ⟨r3, (scalarOneOrNone_ok_some_iff _ r3).mp hq3⟩,
                    h1.symm, h2.symm⟩))
              | none =>
                simp only [Except.ok.injEq, Prod.mk.injEq] at h
                obtain ⟨h1, h2⟩ := h
                exact Or.inr (Or.inr (Or.inr (Or.inr
                  ⟨(scalarOneOrNone_ok_none_iff _).mp hq1, h1.symm, h2.symm,
                    Or.inl ⟨hseat, (scalarOneOrNone_ok_none_iff _).mp hq3⟩⟩)))
          · simp only [Bool.not_eq_true] at hseat
            simp only [hseat, Bool.false_eq_true, if_false, ge_iff_le] at h
            by_cases hcap : s.capacity ≤ activeReservationCount db sid
            · rw [if_pos hcap] at h
              simp only [Except.ok.injEq, Prod.mk.injEq] at h
              obtain ⟨h1, h2⟩ := h
              exact Or.inr (Or.inr (Or.inr (Or.inl
                ⟨(scalarOneOrNone_ok_none_iff _).mp hq1, hseat,
                  ⟨s, (scalarOneOrNone_ok_some_iff _ s).mp hq2, hcap⟩,
                  h1.symm, h2.symm⟩)))
            · rw [if_neg hcap] at h
              simp only [Except.ok.injEq, Prod.mk.injEq] at h
              obtain ⟨h1, h2⟩ := h
              exact Or.inr (Or.inr (Or.inr (Or.inr
                ⟨(scalarOneOrNone_ok_none_iff _).mp hq1, h1.symm, h2.symm,
                  Or.inr ⟨hseat, s, (scalarOneOrNone_ok_some_iff _ s).mp hq2,
                    by omega⟩⟩)))

theorem mem_insertSortedBy {α : Type} {key : α → Int} {a x : α} :
    ∀ {l : List α}, x ∈ insertSortedBy key a l ↔ x = a ∨ x ∈ l := by
  intro l
  induction l with
  | nil => simp [insertSortedBy]
  | cons b t ih =>
    simp only [insertSortedBy]
    split
    · simp
    · simp only [List.mem_cons, ih]
      tauto

theorem mem_sortBy {α : Type} {key : α → Int} {x : α} :
    ∀ {l : List α}, x ∈ sortBy key l ↔ x ∈ l := by
  intro l
  induction l with
  | nil => simp [sortBy]
  | cons a t ih =>
    simp only [sortBy, mem_insertSortedBy, ih, List.mem_cons]

theorem mem_of_getLast?' {α : Type} : ∀ {l : List α} {a : α},
    l.getLast? = some a → a ∈ l
  | [], a, h => by simp at h
  | [x], a, h => by
    simp only [List.getLast?_singleton, Option.some.injEq] at h
    simp [h]
  | x :: y :: t, a, h => by
    rw [List.getLast?_cons_cons] at h
    exact List.mem_cons_of_mem x (mem_of_getLast?' h)

theorem exceptionFor_mem {db : DB} {i : Nat} {d : Day} {e : StandingBookingException}
    (h : exceptionFor db i d = some e) :
    e ∈ db.standing_booking_exceptions ∧ e.standing_booking_id = i ∧
      e.session_date = d := by
  unfold exceptionFor at h
  have hmem := mem_of_getLast?' h
  have hf := List.mem_filter.mp hmem
  refine ⟨hf.1, ?_, ?_⟩
  · have := hf.2
    simp only [Bool.and_eq_true, beq_iff_eq] at this
    exact this.1
  · have := hf.2
    simp only [Bool.and_eq_true, beq_iff_eq] at this
    exact this.2

theorem exceptionFor_eq_of_sameTables {db2 db : DB} (h : SameTables db2 db)
    (i : Nat) (d : Day) : exceptionFor db2 i d = exceptionFor db i d := by
  unfold exceptionFor
  rw [h.2.2.1]

theorem reservationsForPair_sameTables_mono {db2 db : DB} {sid pid : Nat}
    (h : db2.reservations = db.reservations ++ Δ) :
    reservationsForPair db2 sid pid =
      reservationsForPair db sid pid ++
        (Δ.filter fun r => r.session_id == sid && r.person_id == pid) := by
  unfold reservationsForPair
  rw [h, List.filter_append]

theorem statsAddCounts_bump_existing (a s : Stats) :
    statsAddCounts a { s with skipped_existing := s.skipped_existing + 1 } =
      { statsAddCounts a s with
        skipped_existing := (statsAddCounts a s).skipped_existing + 1 } := by
  simp [statsAddCounts, Stats.mk.injEq, Nat.add_assoc]

theorem statsAddCounts_bump_seat (a s : Stats) :
    statsAddCounts a { s with skipped_seat_taken := s.skipped_seat_taken + 1 } =
      { statsAddCounts a s with
        skipped_seat_taken := (statsAddCounts a s).skipped_seat_taken + 1 } := by
  simp [statsAddCounts, Stats.mk.injEq, Nat.add_assoc]

theorem statsAddCounts_bump_cap (a s : Stats) :
    statsAddCounts a { s with skipped_no_capacity := s.skipped_no_capacity + 1 } =
      { statsAddCounts a s with
        skipped_no_capacity := (statsAddCounts a s).skipped_no_capacity + 1 } := by
  simp [statsAddCounts, Stats.mk.injEq, Nat.add_assoc]

theorem statsAddCounts_bump_created (a s : Stats) :
    statsAddCounts a { s with created_reservations := s.created_reservations + 1 } =
      { statsAddCounts a s with
        created_reservations := (statsAddCounts a s).created_reservations + 1 } := by
  simp [statsAddCounts, Stats.mk.injEq, Nat.add_assoc]

theorem statsAddCounts_bump_exceptions (a s : Stats) :
    statsAddCounts a { s with skipped_exceptions := s.skipped_exceptions + 1 } =
      { statsAddCounts a s with
        skipped_exceptions := (statsAddCounts a s).skipped_exceptions + 1 } := by
  simp [statsAddCounts, Stats.mk.injEq, Nat.add_assoc]

theorem attempt_statsAdd (db : DB) (sb : StandingBooking) (sid : Nat)
    (a s : Stats) (src : String) :
    create_reservation_if_possible db sb sid (statsAddCounts a s) src =
      (create_reservation_if_possible db sb sid s src).map
        (fun p => (p.1, statsAddCounts a p.2)) := by
  unfold create_reservation_if_possible
  repeat' split
  all_goals simp only [Except.map, statsAddCounts_bump_existing,
    statsAddCounts_bump_seat, statsAddCounts_bump_cap, statsAddCounts_bump_created]

theorem statsAddCounts_empty (a : Stats) : statsAddCounts a Stats.empty = a := by
  simp [statsAddCounts, Stats.empty]

theorem materializeSessionList_statsAdd (sb : StandingBooking) (a : Stats) :
    ∀ (ss : List ClassSession) (db : DB) (s : Stats),
      materializeSessionList sb db (statsAddCounts a s) ss =
        ((materializeSessionList sb db s ss).1,
         statsAddCounts a (materializeSessionList sb db s ss).2.1,
         (materializeSessionList sb db s ss).2.2) := by
  intro ss
  induction ss with
  | nil => intro db s; rfl
  | cons c rest ih =>
    intro db s
    simp only [materializeSessionList]
    cases hexc : exceptionFor db sb.id (dateOf c.start_at) with
    | none =>
      rw [attempt_statsAdd]
      rcases hA : create_reservation_if_possible db sb c.id s "standing" with e | p
      · simp [Except.map]
      · simp only [Except.map]
        exact ih p.1 p.2
    | some exc =>
      dsimp only
      simp only [← statsAddCounts_bump_exceptions]
      cases hns : exc.new_session_id with
      | none =>
        simp only [hns, optTruthy, Bool.and_false, Bool.false_eq_true, if_false]
        exact ih db { s with skipped_exceptions := s.skipped_exceptions + 1 }
      | some nsid =>
        simp only [hns]
        cases hcond : (exc.action == "reschedule" && optTruthy (some nsid)) with
        | false =>
          simp only [Bool.false_eq_true, if_false]
          exact ih db { s with skipped_exceptions := s.skipped_exceptions + 1 }
        | true =>
          simp only [if_true]
          rw [attempt_statsAdd]
          rcases hA : create_reservation_if_possible db sb nsid
            { s with skipped_exceptions := s.skipped_exceptions + 1 } "override" with
            e | p
          · simp [Except.map]
          · simp only [Except.map]
            exact ih p.1 p.2

theorem attempt_ok_exc_eq {db db' : DB} {sb : StandingBooking} {sid : Nat}
    {stats stats' : Stats} {src : String}
    (h : create_reservation_if_possible db sb sid stats src = .ok (db', stats')) :
    stats'.skipped_exceptions = stats.skipped_exceptions := by
  rcases attempt_ok_cases h with ⟨_, _, _, rfl⟩ | ⟨_, _, _, rfl⟩ |
    ⟨_, _, _, _, rfl⟩ | ⟨_, _, _, _, rfl⟩ | ⟨_, _, rfl, _⟩ <;> rfl

theorem materializeSessionList_exc_mono (sb : StandingBooking) :
    ∀ (ss : List ClassSession) (db : DB) (stats : Stats),
      stats.skipped_exceptions ≤
        (materializeSessionList sb db stats ss).2.1.skipped_exceptions := by
  intro ss
  induction ss with
  | nil => intro db stats; exact le_refl _
  | cons c rest ih =>
    intro db stats
    simp only [materializeSessionList]
    cases hexc : exceptionFor db sb.id (dateOf c.start_at) with
    | none =>
      dsimp only
      rcases hA : create_reservation_if_possible db sb c.id stats "standing" with
        e | ⟨db', st'⟩
      · exact le_refl _
      · dsimp only
        have h1 := attempt_ok_exc_eq hA
        have h2 := ih db' st'
        omega
    | some exc =>
      dsimp only
      rcases Or.symm (Bool.eq_false_or_eq_true
          (exc.action == "reschedule" && optTruthy exc.new_session_id)) with hcond | hcond
      · rw [hcond, if_neg Bool.false_ne_true]
        have h2 := ih db { stats with skipped_exceptions := stats.skipped_exceptions + 1 }
        simp only at h2
        omega
      · rw [hcond, if_pos rfl]
        cases hns : exc.new_session_id with
        | none =>
          dsimp only
          have h2 := ih db { stats with skipped_exceptions := stats.skipped_exceptions + 1 }
          simp only at h2
          omega
        | some nsid =>
          dsimp only
          rcases hA : create_reservation_if_possible db sb nsid
              { stats with skipped_exceptions := stats.skipped_exceptions + 1 }
              "override" with e | ⟨db', st'⟩
          · exact Nat.le_succ _
          · dsimp only
            have h1 := attempt_ok_exc_eq hA
            have h2 := ih db' st'
            simp only at h1
            omega

theorem materializeSessionList_exc_increment (sb : StandingBooking) :
    ∀ (ss : List ClassSession) (db : DB) (stats : Stats) (S : ClassSession),
      S ∈ ss → (exceptionFor db sb.id (dateOf S.start_at)).isSome = true →
      (materializeSessionList sb db stats ss).2.2 = none →
      stats.skipped_exceptions + 1 ≤
        (materializeSessionList sb db stats ss).2.1.skipped_exceptions := by
  intro ss
  induction ss with
  | nil => intro db stats S hS; simp at hS
  | cons c rest ih =>
    intro db stats S hS hsome herr
    simp only [materializeSessionList] at herr ⊢
    rcases List.mem_cons.mp hS with rfl | hS'
    · cases hexc : exceptionFor db sb.id (dateOf S.start_at) with
      | none => rw [hexc] at hsome; simp at hsome
      | some exc =>
        rw [hexc] at herr
        dsimp only
        rcases Or.symm (Bool.eq_false_or_eq_true
            (exc.action == "reschedule" && optTruthy exc.new_session_id)) with
          hcond | hcond
        · rw [hcond, if_neg Bool.false_ne_true]
          have h2 := materializeSessionList_exc_mono sb rest db
            { stats with skipped_exceptions := stats.skipped_exceptions + 1 }
          simp only at h2
          omega
        · rw [hcond, if_pos rfl]
          cases hns : exc.new_session_id with
          | none =>
            dsimp only
            have h2 := materializeSessionList_exc_mono sb rest db
              { stats with skipped_exceptions := stats.skipped_exceptions + 1 }
            simp only at h2
            omega
          | some nsid =>
            dsimp only
            rcases hA : create_reservation_if_possible db sb nsid
                { stats with skipped_exceptions := stats.skipped_exceptions + 1 }
                "override" with e | ⟨db', st'⟩
            · exact le_refl _
            · dsimp only
              have h1 := attempt_ok_exc_eq hA
              have h2 := materializeSessionList_exc_mono sb rest db' st'
              simp only at h1
              omega
    · cases hexc : exceptionFor db sb.id (dateOf c.start_at) with
      | none =>
        rw [hexc] at herr
        dsimp only at herr ⊢
        rcases hA : create_reservation_if_possible db sb c.id stats "standing" with
          e | ⟨db', st'⟩
        · rw [hA] at herr
          simp at herr
        · rw [hA] at herr
          dsimp only at herr ⊢
          have hst := attempt_ok_sameTables hA
          have hsome' : (exceptionFor db' sb.id (dateOf S.start_at)).isSome = true := by
            rw [exceptionFor_eq_of_sameTables hst]; exact hsome
          have h1 := attempt_ok_exc_eq hA
          have h2 := ih db' st' S hS' hsome' herr
          omega
      | some exc =>
        rw [hexc] at herr
        dsimp only at herr ⊢
        rcases Or.symm (Bool.eq_false_or_eq_true
            (exc.action == "reschedule" && optTruthy exc.new_session_id)) with
          hcond | hcond
        · rw [hcond, if_neg Bool.false_ne_true] at herr ⊢
          have h2 := ih db
            { stats with skipped_exceptions := stats.skipped_exceptions + 1 }
            S hS' hsome herr
          simp only at h2
          omega
        · rw [hcond, if_pos rfl] at herr ⊢
          cases hns : exc.new_session_id with
          | none =>
            rw [hns] at herr
            dsimp only at herr ⊢
            have h2 := ih db
              { stats with skipped_exceptions := stats.skipped_exceptions + 1 }
              S hS' hsome herr
            simp only at h2
            omega
          | some nsid =>
            rw [hns] at herr
            dsimp only at herr ⊢
            rcases hA : create_reservation_if_possible db sb nsid
                { stats with skipped_exceptions := stats.skipped_exceptions + 1 }
                "override" with e | ⟨db', st'⟩
            · rw [hA] at herr
            · rw [hA] at herr
              dsimp only at herr ⊢
              have hst := attempt_ok_sameTables hA
              have hsome' : (exceptionFor db' sb.id (dateOf S.start_at)).isSome = true := by
                rw [exceptionFor_eq_of_sameTables hst]; exact hsome
              have h1 := attempt_ok_exc_eq hA
              have h2 := ih db' st' S hS' hsome' herr
              simp only at h1
              omega

theorem attempt_ok_reservations_append {db db' : DB} {sb : StandingBooking}
    {sid : Nat} {stats stats' : Stats} {src : String}
    (h : create_reservation_if_possible db sb sid stats src = .ok (db', stats')) :
    db'.reservations = db.reservations ∨
    db'.reservations = db.reservations ++
      [{ id := db.next_id, session_id := sid, person_id := sb.person_id,
         seat_id := sb.seat_id, status := "reserved", source := src }] := by
  rcases attempt_ok_cases h with ⟨_, _, rfl, _⟩ | ⟨_, _, rfl, _⟩ |
    ⟨_, _, _, rfl, _⟩ | ⟨_, _, _, rfl, _⟩ | ⟨_, rfl, _, _⟩
  · exact Or.inl rfl
  · exact Or.inl rfl
  · exact Or.inl rfl
  · exact Or.inl rfl
  · exact Or.inr rfl

theorem materializeSessionList_reservations_append (sb : StandingBooking) :
    ∀ (ss : List ClassSession) (db : DB) (stats : Stats),
      ∃ L, (materializeSessionList sb db stats ss).1.reservations =
          db.reservations ++ L ∧
        ∀ r ∈ L, r.person_id = sb.person_id ∧ r.status = "reserved" ∧
          ((∃ s ∈ ss, r.session_id = s.id ∧
              exceptionFor db sb.id (dateOf s.start_at) = none) ∨
            (∃ e ∈ db.standing_booking_exceptions,
              e.standing_booking_id = sb.id ∧
              e.new_session_id = some r.session_id)) := by
  intro ss
  induction ss with
  | nil =>
    intro db stats
    exact ⟨[], by simp [materializeSessionList], by simp⟩
  | cons c rest ih =>
    intro db stats
    simp only [materializeSessionList]
    cases hexc : exceptionFor db sb.id (dateOf c.start_at) with
    | none =>
      dsimp only
      rcases hA : create_reservation_if_possible db sb c.id stats "standing" with
        e | ⟨db', st'⟩
      · exact ⟨[], by simp, by simp⟩
      · dsimp only
        have hst := attempt_ok_sameTables hA
        obtain ⟨L', hLeq, hLprops⟩ := ih db' st'
        rcases attempt_ok_reservations_append hA with hres | hres
        · refine ⟨L', by rw [hLeq, hres], ?_⟩
          intro r hr
          obtain ⟨h1, h2, h3⟩ := hLprops r hr
          refine ⟨h1, h2, ?_⟩
          rcases h3 with ⟨s, hs, hsid, hse⟩ | ⟨e, he, he1, he2⟩
          · exact Or.inl ⟨s, List.mem_cons_of_mem _ hs, hsid, by
              rw [← exceptionFor_eq_of_sameTables hst]; exact hse⟩
          · exact Or.inr ⟨e, (by rw [← hst.2.2.1]; exact he), he1, he2⟩
        · refine ⟨⟨db.next_id, c.id, sb.person_id, sb.seat_id,
              "reserved", "standing"⟩ :: L',
            (by rw [hLeq, hres]; simp), ?_⟩
          intro r hr
          rcases List.mem_cons.mp hr with rfl | hr'
          · exact ⟨rfl, rfl, Or.inl ⟨c, List.mem_cons_self _ _, rfl, hexc⟩⟩
          · obtain ⟨h1, h2, h3⟩ := hLprops r hr'
            refine ⟨h1, h2, ?_⟩
            rcases h3 with ⟨s, hs, hsid, hse⟩ | ⟨e, he, he1, he2⟩
            · exact Or.inl ⟨s, List.mem_cons_of_mem _ hs, hsid, by
                rw [← exceptionFor_eq_of_sameTables hst]; exact hse⟩
            · exact Or.inr ⟨e, (by rw [← hst.2.2.1]; exact he), he1, he2⟩
    | some exc =>
      dsimp only
      rcases Or.symm (Bool.eq_false_or_eq_true
          (exc.action == "reschedule" && optTruthy exc.new_session_id)) with
        hcond | hcond
      · rw [hcond, if_neg Bool.false_ne_true]
        obtain ⟨L', hLeq, hLprops⟩ := ih db _
        refine ⟨L', hLeq, ?_⟩
        intro r hr
        obtain ⟨h1, h2, h3⟩ := hLprops r hr
        refine ⟨h1, h2, ?_⟩
        rcases h3 with ⟨s, hs, hsid, hse⟩ | he
        · exact Or.inl ⟨s, List.mem_cons_of_mem _ hs, hsid, hse⟩
        · exact Or.inr he
      · rw [hcond, if_pos rfl]
        cases hns : exc.new_session_id with
        | none =>
          dsimp only
          obtain ⟨L', hLeq, hLprops⟩ := ih db _
          refine ⟨L', hLeq, ?_⟩
          intro r hr
          obtain ⟨h1, h2, h3⟩ := hLprops r hr
          refine ⟨h1, h2, ?_⟩
          rcases h3 with ⟨s, hs, hsid, hse⟩ | he
          · exact Or.inl ⟨s, List.mem_cons_of_mem _ hs, hsid, hse⟩
          · exact Or.inr he
        | some nsid =>
          dsimp only
          rcases hA : create_reservation_if_possible db sb nsid
              { stats with skipped_exceptions := stats.skipped_exceptions + 1 }
              "override" with e | ⟨db', st'⟩
          · exact ⟨[], by simp, by simp⟩
          · dsimp only
            have hst := attempt_ok_sameTables hA
            obtain ⟨L', hLeq, hLprops⟩ := ih db' st'
            have hexcmem := exceptionFor_mem hexc
            rcases attempt_ok_reservations_append hA with hres | hres
            · refine ⟨L', by rw [hLeq, hres], ?_⟩
              intro r hr
              obtain ⟨h1, h2, h3⟩ := hLprops r hr
              refine ⟨h1, h2, ?_⟩
              rcases h3 with ⟨s, hs, hsid, hse⟩ | ⟨e, he, he1, he2⟩
              · exact Or.inl ⟨s, List.mem_cons_of_mem _ hs, hsid, by
                  rw [← exceptionFor_eq_of_sameTables hst]; exact hse⟩
              · exact Or.inr ⟨e, (by rw [← hst.2.2.1]; exact he), he1, he2⟩
            · refine ⟨⟨db.next_id, nsid, sb.person_id, sb.seat_id,
                  "reserved", "override"⟩ :: L',
                (by rw [hLeq, hres]; simp), ?_⟩
              intro r hr
              rcases List.mem_cons.mp hr with rfl | hr'
              · exact ⟨rfl, rfl, Or.inr ⟨exc, hexcmem.1, hexcmem.2.1, by
                  rw [hns]⟩⟩
              · obtain ⟨h1, h2, h3⟩ := hLprops r hr'
                refine ⟨h1, h2, ?_⟩
                rcases h3 with ⟨s, hs, hsid, hse⟩ | ⟨e, he, he1, he2⟩
                · exact Or.inl ⟨s, List.mem_cons_of_mem _ hs, hsid, by
                    rw [← exceptionFor_eq_of_sameTables hst]; exact hse⟩
                · exact Or.inr ⟨e, (by rw [← hst.2.2.1]; exact he), he1, he2⟩

theorem attempt_seatless_creates {db : DB} {sb : StandingBooking} {sid : Nat}
    {stats : Stats} {src : String} {s : ClassSession}
    (hseat : optTruthy sb.seat_id = false)
    (hpair : reservationsForPair db sid sb.person_id = [])
    (hsess : db.sessions.filter (fun x => x.id == sid) = [s])
    (hcap : activeReservationCount db sid < s.capacity) :
    create_reservation_if_possible db sb sid stats src =
      .ok (insertReservation db sb sid src,
        { stats with created_reservations := stats.created_reservations + 1 }) := by
  unfold create_reservation_if_possible
  rw [hpair, hsess]
  dsimp only [scalarOneOrNone]
  rw [hseat]
  rw [if_neg Bool.false_ne_true, if_neg (by omega)]

/-- C6: exception precedence in `_materialize_single_standing_booking`.
Part (i): for a standing booking with an exception recorded on the date of a
scheduled session `S` of its (active) template inside the materialization
window — in particular a `skip` exception — and no reschedule exception of
that booking pointing at `S`, the run creates no reservation on `S`, and if
the run raises no error the booking's `skipped_exceptions` counter is
incremented.  Part (ii): for a reschedule exception on the single in-window
session `S` pointing to session `nsid`, when the pair/seat/capacity checks
pass for a seatless booking, the run creates exactly one `reserved`
reservation on `nsid` tagged `source = "override"`, increments
`skipped_exceptions` and `created_reservations`, and leaves the
reservations of the original session `S` unchanged. -/
theorem C6_exception_precedence :
    (∀ (db : DB) (b : StandingBooking) (lo hi : Day) (stats : Stats)
        (tmpl : ClassTemplate) (S : ClassSession) (exc : StandingBookingException),
      db.templates.find? (fun t => t.id == b.template_id) = some tmpl →
      tmpl.is_active = true →
      S ∈ db.sessions → S.template_id = some tmpl.id → S.status = "scheduled" →
      max lo b.start_date ≤ dateOf S.start_at →
      dateOf S.start_at ≤ min hi b.end_date →
      exceptionFor db b.id (dateOf S.start_at) = some exc →
      exc.action = "skip" →
      (∀ s ∈ db.sessions, s.id = S.id → s = S) →
      (∀ e ∈ db.standing_booking_exceptions, e.standing_booking_id = b.id →
        e.new_session_id ≠ some S.id) →
      ((materialize_single_standing_booking db b lo hi stats).1.reservations.filter
          (fun r => r.session_id == S.id) =
        db.reservations.filter (fun r => r.session_id == S.id)) ∧
      ((materialize_single_standing_booking db b lo hi stats).2.2 = none →
        stats.skipped_exceptions + 1 ≤
          (materialize_single_standing_booking db b lo hi stats).2.1.skipped_exceptions)) ∧
    (∀ (db : DB) (b : StandingBooking) (lo hi : Day) (stats : Stats)
        (tmpl : ClassTemplate) (S S2 : ClassSession) (exc : StandingBookingException)
        (nsid : Nat),
      db.templates.find? (fun t => t.id == b.template_id) = some tmpl →
      tmpl.is_active = true →
      scheduledSessionsInRange db tmpl.id (max lo b.start_date)
        (min hi b.end_date) = [S] →
      exceptionFor db b.id (dateOf S.start_at) = some exc →
      exc.action = "reschedule" →
      exc.new_session_id = some nsid → nsid ≠ 0 →
      optTruthy b.seat_id = false →
      reservationsForPair db nsid b.person_id = [] →
      db.sessions.filter (fun x => x.id == nsid) = [S2] →
      activeReservationCount db nsid < S2.capacity →
      nsid ≠ S.id →
      materialize_single_standing_booking db b lo hi stats =
        (insertReservation db b nsid "override",
         { stats with skipped_exceptions := stats.skipped_exceptions + 1, created_reservations := stats.created_reservations + 1 }, none) ∧
      (insertReservation db b nsid "override").reservations =
        db.reservations ++
          [⟨db.next_id, nsid, b.person_id, b.seat_id, "reserved", "override"⟩] ∧
      (insertReservation db b nsid "override").reservations.filter
          (fun r => r.session_id == S.id) =
        db.reservations.filter (fun r => r.session_id == S.id)) := by
  constructor
  · intro db b lo hi stats tmpl S exc hfind hact hSmem hStid hSstat hlo hhi hexc
      hskip huniq hnores
    have hred : materialize_single_standing_booking db b lo hi stats =
        materializeSessionList b db stats (scheduledSessionsInRange db tmpl.id
          (max lo b.start_date) (min hi b.end_date)) := by
      unfold materialize_single_standing_booking
      rw [hfind]
      dsimp only
      rw [if_neg (by rw [hact]; simp)]
    have hSin : S ∈ scheduledSessionsInRange db tmpl.id
        (max lo b.start_date) (min hi b.end_date) := by
      unfold scheduledSessionsInRange
      rw [mem_sortBy]
      refine List.mem_filter.mpr ⟨hSmem, ?_⟩
      simp [hStid, hSstat, hlo, hhi]
    obtain ⟨L, hLeq, hLprops⟩ :=
      materializeSessionList_reservations_append b
        (scheduledSessionsInRange db tmpl.id (max lo b.start_date)
          (min hi b.end_date)) db stats
    constructor
    · rw [hred, hLeq, List.filter_append]
      have hLnil : L.filter (fun r => r.session_id == S.id) = [] := by
        rw [List.filter_eq_nil_iff]
        intro r hr
        obtain ⟨h1, h2, h3⟩ := hLprops r hr
        simp only [beq_iff_eq]
        intro hid
        rcases h3 with ⟨s, hs, hsid, hse⟩ | ⟨e, he, he1, he2⟩
        · have hs' : s ∈ db.sessions := by
            unfold scheduledSessionsInRange at hs
            rw [mem_sortBy] at hs
            exact (List.mem_filter.mp hs).1
          have hsS : s = S := huniq s hs' (by rw [← hsid]; exact hid)
          rw [hsS] at hse
          rw [hexc] at hse
          simp at hse
        · rw [hid] at he2
          exact hnores e he he1 he2
      rw [hLnil, List.append_nil]
    · intro herr
      rw [hred] at herr ⊢
      have hsome : (exceptionFor db b.id (dateOf S.start_at)).isSome = true := by
        rw [hexc]; rfl
      exact materializeSessionList_exc_increment b _ db stats S hSin hsome herr
  · intro db b lo hi stats tmpl S S2 exc nsid hfind hact hrange hexc haction hns
      hn0 hseat hpair hS2 hcap hneq
    have hcond : (exc.action == "reschedule" && optTruthy exc.new_session_id)
        = true := by
      rw [haction, hns]
      simp [optTruthy, hn0]
    have hmain : materialize_single_standing_booking db b lo hi stats =
        (insertReservation db b nsid "override",
         { stats with skipped_exceptions := stats.skipped_exceptions + 1, created_reservations := stats.created_reservations + 1 }, none) := by
      unfold materialize_single_standing_booking
      rw [hfind]
      dsimp only
      rw [if_neg (by rw [hact]; simp)]
      rw [hrange]
      simp only [materializeSessionList]
      rw [hexc]
      dsimp only
      rw [if_pos hcond, hns]
      dsimp only
      rw [attempt_seatless_creates hseat hpair hS2 hcap]
    refine ⟨hmain, rfl, ?_⟩
    simp only [insertReservation, List.filter_append]
    simp [hneq]

/-- Witness for C6 on the concrete skip and reschedule scenarios: the skip
database keeps its (empty) reservation list for session 2 and counts one
skipped exception; the reschedule database gains exactly the override
reservation on session 50. -/
theorem C6_witness :
    ((materialize_single_standing_booking dbC6skip sbA 0 30 Stats.empty).1.reservations.filter
        (fun r => r.session_id == sessA.id) =
      dbC6skip.reservations.filter (fun r => r.session_id == sessA.id)) ∧
    Stats.empty.skipped_exceptions + 1 ≤
      (materialize_single_standing_booking dbC6skip sbA 0 30 Stats.empty).2.1.skipped_exceptions ∧
    materialize_single_standing_booking dbC6res sbA 0 30 Stats.empty =
      (insertReservation dbC6res sbA 50 "override",
       { Stats.empty with skipped_exceptions := Stats.empty.skipped_exceptions + 1, created_reservations := Stats.empty.created_reservations + 1 }, none) := by
  have h1 := (C6_exception_precedence.1 dbC6skip sbA 0 30 Stats.empty tmplA sessA
    excSkip (by decide) (by decide) (by decide) (by decide) (by decide) (by decide)
    (by decide) (by decide) (by decide) (by decide) (by decide))
  have h2 := (C6_exception_precedence.2 dbC6res sbA 0 30 Stats.empty tmplA sessA
    sessC6T excRes 50 (by decide) (by decide) (by decide) (by decide) (by decide)
    (by decide) (by decide) (by decide) (by decide) (by decide) (by decide)
    (by decide))
  exact ⟨h1.1, h1.2 (by decide), h2.1⟩

theorem list_len_le_one {α : Type} {l : List α} (h : l.length ≤ 1) :
    l = [] ∨ ∃ a, l = [a] := by
  cases l with
  | nil => exact Or.inl rfl
  | cons a t =>
    cases t with
    | nil => exact Or.inr ⟨a, rfl⟩
    | cons x u => simp at h

theorem getLast?_cons_ne_none {α : Type} :
    ∀ (l : List α) (a : α), (a :: l).getLast? ≠ none := by
  intro l
  induction l with
  | nil => intro a; simp
  | cons x u ih => intro a; rw [List.getLast?_cons_cons]; exact ih x

theorem noexc_no_rows {db : DB} {i : Nat}
    (h : ∀ d, exceptionFor db i d = none) :
    ∀ e ∈ db.standing_booking_exceptions, e.standing_booking_id ≠ i := by
  intro e he hid
  have h1 := h e.session_date
  unfold exceptionFor at h1
  have hmem : e ∈ db.standing_booking_exceptions.filter fun x =>
      x.standing_booking_id == i && x.session_date == e.session_date := by
    refine List.mem_filter.mpr ⟨he, ?_⟩
    simp [hid]
  rcases hfl : db.standing_booking_exceptions.filter fun x =>
      x.standing_booking_id == i && x.session_date == e.session_date with _ | ⟨y, ys⟩
  · rw [hfl] at hmem
    simp at hmem
  · rw [hfl] at h1
    exact getLast?_cons_ne_none ys y h1

theorem attempt_skips_existing {db : DB} {sb : StandingBooking} {sid : Nat}
    {stats : Stats} {src : String} {r : Reservation}
    (hpair : reservationsForPair db sid sb.person_id = [r]) :
    create_reservation_if_possible db sb sid stats src =
      .ok (db, { stats with skipped_existing := stats.skipped_existing + 1 }) := by
  unfold create_reservation_if_possible
  rw [hpair]
  rfl

theorem attempt_missing_session {db : DB} {sb : StandingBooking} {sid : Nat}
    {stats : Stats} {src : String}
    (hpair : reservationsForPair db sid sb.person_id = [])
    (hsess : db.sessions.filter (fun x => x.id == sid) = []) :
    create_reservation_if_possible db sb sid stats src = .ok (db, stats) := by
  unfold create_reservation_if_possible
  rw [hpair, hsess]
  rfl

theorem attempt_seatless_nocap {db : DB} {sb : StandingBooking} {sid : Nat}
    {stats : Stats} {src : String} {s : ClassSession}
    (hseat : optTruthy sb.seat_id = false)
    (hpair : reservationsForPair db sid sb.person_id = [])
    (hsess : db.sessions.filter (fun x => x.id == sid) = [s])
    (hcap : s.capacity ≤ activeReservationCount db sid) :
    create_reservation_if_possible db sb sid stats src =
      .ok (db, { stats with
        skipped_no_capacity := stats.skipped_no_capacity + 1 }) := by
  unfold create_reservation_if_possible
  rw [hpair, hsess]
  dsimp only [scalarOneOrNone]
  rw [hseat]
  rw [if_neg Bool.false_ne_true, if_pos (by omega)]

theorem materializeSessionList_from (sb : StandingBooking) (a : Stats)
    (ss : List ClassSession) (db : DB) :
    materializeSessionList sb db a ss =
      ((materializeSessionList sb db Stats.empty ss).1,
       statsAddCounts a (materializeSessionList sb db Stats.empty ss).2.1,
       (materializeSessionList sb db Stats.empty ss).2.2) := by
  conv_lhs => rw [← statsAddCounts_empty a]
  rw [materializeSessionList_statsAdd]

theorem insertReservation_pair_self {db : DB} {b : StandingBooking} {cid : Nat}
    {src : String} (hp0 : reservationsForPair db cid b.person_id = []) :
    reservationsForPair (insertReservation db b cid src) cid b.person_id =
      [⟨db.next_id, cid, b.person_id, b.seat_id, "reserved", src⟩] := by
  unfold reservationsForPair at hp0 ⊢
  unfold insertReservation
  dsimp only
  rw [List.filter_append, hp0]
  simp

theorem insertReservation_pair_invariant {db : DB} {b : StandingBooking}
    {cid : Nat} {src : String}
    (hpair : ∀ sid, (reservationsForPair db sid b.person_id).length ≤ 1)
    (hp0 : reservationsForPair db cid b.person_id = []) :
    ∀ sid, (reservationsForPair (insertReservation db b cid src)
      sid b.person_id).length ≤ 1 := by
  intro sid
  unfold reservationsForPair insertReservation
  dsimp only
  rw [List.filter_append, List.length_append]
  by_cases hsid : sid = cid
  · subst hsid
    unfold reservationsForPair at hp0
    rw [hp0]
    simp
  · have hx : (List.filter
        (fun r => r.session_id == sid && r.person_id == b.person_id)
        ([⟨db.next_id, cid, b.person_id, b.seat_id, "reserved", src⟩] :
          List Reservation)).length = 0 := by
      have hfalse : (cid == sid) = false := by
        simp only [beq_eq_false_iff_ne, ne_eq]
        intro h
        exact hsid h.symm
      simp [List.filter, hfalse]
    have hy := hpair sid
    unfold reservationsForPair at hy
    omega

theorem pair_append_skip {dbm db1 : DB} {cid pid : Nat} {L : List Reservation}
    (hL : db1.reservations = dbm.reservations ++ L)
    (hnc : ∀ r ∈ L, r.session_id ≠ cid) :
    reservationsForPair db1 cid pid = reservationsForPair dbm cid pid := by
  have h0 : L.filter (fun r => r.session_id == cid && r.person_id == pid) = [] := by
    rw [List.filter_eq_nil_iff]
    intro x hx hpx
    simp only [Bool.and_eq_true, beq_iff_eq] at hpx
    exact hnc x hx hpx.1
  unfold reservationsForPair
  rw [hL, List.filter_append, h0, List.append_nil]

theorem count_append_skip {dbm db1 : DB} {cid : Nat} {L : List Reservation}
    (hL : db1.reservations = dbm.reservations ++ L)
    (hnc : ∀ r ∈ L, r.session_id ≠ cid) :
    activeReservationCount db1 cid = activeReservationCount dbm cid := by
  have h0 : L.filter
      (fun r => r.session_id == cid && isActiveReservationStatus r.status) = [] := by
    rw [List.filter_eq_nil_iff]
    intro x hx hpx
    simp only [Bool.and_eq_true, beq_iff_eq] at hpx
    exact hnc x hx hpx.1
  unfold activeReservationCount
  rw [hL, List.filter_append, h0, List.append_nil]

theorem insertReservation_pair_other {db : DB} {b : StandingBooking}
    {cid sid pid : Nat} {src : String} (hsid : sid ≠ cid) :
    reservationsForPair (insertReservation db b cid src) sid pid =
      reservationsForPair db sid pid := by
  unfold reservationsForPair insertReservation
  dsimp only
  rw [List.filter_append]
  have hfalse : (cid == sid) = false := by
    simp only [beq_eq_false_iff_ne, ne_eq]
    intro h
    exact hsid h.symm
  simp [List.filter, hfalse]

theorem exceptionFor_none_of_no_rows {db : DB} {i : Nat}
    (h : ∀ e ∈ db.standing_booking_exceptions, e.standing_booking_id ≠ i) :
    ∀ d, exceptionFor db i d = none := by
  intro d
  unfold exceptionFor
  have h0 : db.standing_booking_exceptions.filter
      (fun e => e.standing_booking_id == i && e.session_date == d) = [] := by
    rw [List.filter_eq_nil_iff]
    intro e he hp
    simp only [Bool.and_eq_true, beq_iff_eq] at hp
    exact h e he hp.1
  rw [h0]
  rfl

theorem materializeSessionList_twice (b : StandingBooking)
    (hseat : optTruthy b.seat_id = false) :
    ∀ (ss : List ClassSession) (db : DB),
      (ss.map fun s => s.id).Nodup →
      (∀ s ∈ ss, (reservationsForPair db s.id b.person_id).length ≤ 1) →
      (∀ s ∈ ss, (db.sessions.filter fun x => x.id == s.id).length ≤ 1) →
      (∀ d, exceptionFor db b.id d = none) →
      (materializeSessionList b db Stats.empty ss).2.2 = none ∧
      materializeSessionList b (materializeSessionList b db Stats.empty ss).1
          Stats.empty ss =
        ((materializeSessionList b db Stats.empty ss).1,
         { Stats.empty with skipped_existing := (materializeSessionList b db Stats.empty ss).2.1.created_reservations + (materializeSessionList b db Stats.empty ss).2.1.skipped_existing, skipped_no_capacity := (materializeSessionList b db Stats.empty ss).2.1.skipped_no_capacity },
         none) := by
  intro ss
  induction ss with
  | nil =>
    intro db _ _ _ _
    exact ⟨rfl, rfl⟩
  | cons c rest ih =>
    intro db hnodup hpair hsess hnoexc
    simp only [List.map_cons, List.nodup_cons] at hnodup
    obtain ⟨hnd1, hnd2⟩ := hnodup
    have hsessrest : ∀ s ∈ rest,
        (db.sessions.filter fun x => x.id == s.id).length ≤ 1 :=
      fun s hs => hsess s (List.mem_cons_of_mem _ hs)
    have hpairrest : ∀ s ∈ rest,
        (reservationsForPair db s.id b.person_id).length ≤ 1 :=
      fun s hs => hpair s (List.mem_cons_of_mem _ hs)
    rcases list_len_le_one (hpair c (List.mem_cons_self c rest)) with hp0 | ⟨r, hp0⟩
    · rcases list_len_le_one (hsess c (List.mem_cons_self c rest)) with
        hs0 | ⟨s, hs0⟩
      · -- missing-session branch: the attempt is a silent no-op in both runs
        have hrun1 : materializeSessionList b db Stats.empty (c :: rest) =
            materializeSessionList b db Stats.empty rest := by
          simp only [materializeSessionList]
          rw [hnoexc (dateOf c.start_at)]
          dsimp only
          rw [attempt_missing_session hp0 hs0]
        obtain ⟨ihe, ihr⟩ := ih db hnd2 hpairrest hsessrest hnoexc
        rw [hrun1]
        refine ⟨ihe, ?_⟩
        obtain ⟨L, hL, hLp⟩ :=
          materializeSessionList_reservations_append b rest db Stats.empty
        have hnc : ∀ x ∈ L, x.session_id ≠ c.id := by
          intro x hx hxc
          obtain ⟨_, _, h3⟩ := hLp x hx
          rcases h3 with ⟨s', hs', hsid, _⟩ | ⟨e, he, he1, _⟩
          · exact hnd1 (List.mem_map.mpr ⟨s', hs', by rw [← hsid]; exact hxc⟩)
          · exact noexc_no_rows hnoexc e he he1
        have hst2 : SameTables (materializeSessionList b db Stats.empty rest).1 db :=
          materializeSessionList_sameTables b rest db Stats.empty
        have hrun2 : materializeSessionList b
            (materializeSessionList b db Stats.empty rest).1 Stats.empty
            (c :: rest) =
            materializeSessionList b
              (materializeSessionList b db Stats.empty rest).1 Stats.empty rest := by
          simp only [materializeSessionList]
          rw [exceptionFor_eq_of_sameTables hst2, hnoexc (dateOf c.start_at)]
          dsimp only
          rw [attempt_missing_session (by rw [pair_append_skip hL hnc]; exact hp0)
            (by rw [hst2.1]; exact hs0)]
        rw [hrun2, ihr]
      · rcases le_or_lt s.capacity (activeReservationCount db c.id) with hc | hc
        · -- no-capacity branch in run 1, and again in run 2
          have hrun1 : materializeSessionList b db Stats.empty (c :: rest) =
              ((materializeSessionList b db Stats.empty rest).1,
               statsAddCounts { Stats.empty with skipped_no_capacity := Stats.empty.skipped_no_capacity + 1 } (materializeSessionList b db Stats.empty rest).2.1,
               (materializeSessionList b db Stats.empty rest).2.2) := by
            simp only [materializeSessionList]
            rw [hnoexc (dateOf c.start_at)]
            dsimp only
            rw [attempt_seatless_nocap hseat hp0 hs0 hc]
            dsimp only
            exact materializeSessionList_from b _ rest db
          obtain ⟨ihe, ihr⟩ := ih db hnd2 hpairrest hsessrest hnoexc
          rw [hrun1]
          refine ⟨ihe, ?_⟩
          obtain ⟨L, hL, hLp⟩ :=
            materializeSessionList_reservations_append b rest db Stats.empty
          have hnc : ∀ x ∈ L, x.session_id ≠ c.id := by
            intro x hx hxc
            obtain ⟨_, _, h3⟩ := hLp x hx
            rcases h3 with ⟨s', hs', hsid, _⟩ | ⟨e, he, he1, _⟩
            · exact hnd1 (List.mem_map.mpr ⟨s', hs', by rw [← hsid]; exact hxc⟩)
            · exact noexc_no_rows hnoexc e he he1
          have hst2 : SameTables
              (materializeSessionList b db Stats.empty rest).1 db :=
            materializeSessionList_sameTables b rest db Stats.empty
          have hrun2 : materializeSessionList b
              (materializeSessionList b db Stats.empty rest).1 Stats.empty
              (c :: rest) =
              ((materializeSessionList b
                  (materializeSessionList b db Stats.empty rest).1
                  Stats.empty rest).1,
               statsAddCounts { Stats.empty with skipped_no_capacity := Stats.empty.skipped_no_capacity + 1 } (materializeSessionList b (materializeSessionList b db Stats.empty rest).1 Stats.empty rest).2.1,
               (materializeSessionList b
                  (materializeSessionList b db Stats.empty rest).1
                  Stats.empty rest).2.2) := by
            simp only [materializeSessionList]
            rw [exceptionFor_eq_of_sameTables hst2, hnoexc (dateOf c.start_at)]
            dsimp only
            rw [attempt_seatless_nocap hseat
              (by rw [pair_append_skip hL hnc]; exact hp0)
              (by rw [hst2.1]; exact hs0)
              (by rw [count_append_skip hL hnc]; exact hc)]
            dsimp only
            exact materializeSessionList_from b _ rest _
          rw [hrun2, ihr]
          dsimp only
          simp only [Prod.mk.injEq]
          refine ⟨trivial, ?_, trivial⟩
          simp [statsAddCounts, Stats.empty, Stats.mk.injEq]
        · -- creation branch in run 1, skipped as existing in run 2
          have hrun1 : materializeSessionList b db Stats.empty (c :: rest) =
              ((materializeSessionList b
                  (insertReservation db b c.id "standing") Stats.empty rest).1,
               statsAddCounts { Stats.empty with created_reservations := Stats.empty.created_reservations + 1 } (materializeSessionList b (insertReservation db b c.id "standing") Stats.empty rest).2.1,
               (materializeSessionList b
                  (insertReservation db b c.id "standing") Stats.empty rest).2.2) := by
            simp only [materializeSessionList]
            rw [hnoexc (dateOf c.start_at)]
            dsimp only
            rw [attempt_seatless_creates hseat hp0 hs0 hc]
            dsimp only
            exact materializeSessionList_from b _ rest _
          have hnoexc' : ∀ d,
              exceptionFor (insertReservation db b c.id "standing") b.id d = none :=
            fun d => hnoexc d
          have hsess' : ∀ s' ∈ rest,
              ((insertReservation db b c.id "standing").sessions.filter
                fun x => x.id == s'.id).length ≤ 1 :=
            fun s' hs' => hsessrest s' hs'
          have hpair' : ∀ s' ∈ rest,
              (reservationsForPair (insertReservation db b c.id "standing")
                s'.id b.person_id).length ≤ 1 := by
            intro s' hs'
            have hne : s'.id ≠ c.id := by
              intro hcontra
              exact hnd1 (List.mem_map.mpr ⟨s', hs', hcontra⟩)
            rw [insertReservation_pair_other hne]
            exact hpairrest s' hs'
          obtain ⟨ihe, ihr⟩ := ih (insertReservation db b c.id "standing") hnd2
            hpair' hsess' hnoexc'
          rw [hrun1]
          refine ⟨ihe, ?_⟩
          obtain ⟨L, hL, hLp⟩ :=
            materializeSessionList_reservations_append b rest
              (insertReservation db b c.id "standing") Stats.empty
          have hnc : ∀ x ∈ L, x.session_id ≠ c.id := by
            intro x hx hxc
            obtain ⟨_, _, h3⟩ := hLp x hx
            rcases h3 with ⟨s', hs', hsid, _⟩ | ⟨e, he, he1, _⟩
            · exact hnd1 (List.mem_map.mpr ⟨s', hs', by rw [← hsid]; exact hxc⟩)
            · exact noexc_no_rows hnoexc' e he he1
          have hst2 : SameTables
              (materializeSessionList b
                (insertReservation db b c.id "standing") Stats.empty rest).1
              (insertReservation db b c.id "standing") :=
            materializeSessionList_sameTables b rest _ Stats.empty
          have hrun2 : materializeSessionList b
              (materializeSessionList b
                (insertReservation db b c.id "standing") Stats.empty rest).1
              Stats.empty (c :: rest) =
              ((materializeSessionList b
                  (materializeSessionList b
                    (insertReservation db b c.id "standing") Stats.empty rest).1
                  Stats.empty rest).1,
               statsAddCounts { Stats.empty with skipped_existing := Stats.empty.skipped_existing + 1 } (materializeSessionList b (materializeSessionList b (insertReservation db b c.id "standing") Stats.empty rest).1 Stats.empty rest).2.1,
               (materializeSessionList b
                  (materializeSessionList b
                    (insertReservation db b c.id "standing") Stats.empty rest).1
                  Stats.empty rest).2.2) := by
            simp only [materializeSessionList]
            rw [exceptionFor_eq_of_sameTables hst2, hnoexc' (dateOf c.start_at)]
            dsimp only
            rw [attempt_skips_existing
              (by rw [pair_append_skip hL hnc]; exact insertReservation_pair_self hp0)]
            dsimp only
            exact materializeSessionList_from b _ rest _
          rw [hrun2, ihr]
          dsimp only
          simp only [Prod.mk.injEq]
          refine ⟨trivial, ?_, trivial⟩
          simp [statsAddCounts, Stats.empty, Stats.mk.injEq]
          omega
    · -- pre-existing pair: skipped as existing in both runs
      have hrun1 : materializeSessionList b db Stats.empty (c :: rest) =
          ((materializeSessionList b db Stats.empty rest).1,
           statsAddCounts { Stats.empty with skipped_existing := Stats.empty.skipped_existing + 1 } (materializeSessionList b db Stats.empty rest).2.1,
           (materializeSessionList b db Stats.empty rest).2.2) := by
        simp only [materializeSessionList]
        rw [hnoexc (dateOf c.start_at)]
        dsimp only
        rw [attempt_skips_existing hp0]
        dsimp only
        exact materializeSessionList_from b _ rest db
      obtain ⟨ihe, ihr⟩ := ih db hnd2 hpairrest hsessrest hnoexc
      rw [hrun1]
      refine ⟨ihe, ?_⟩
      obtain ⟨L, hL, hLp⟩ :=
        materializeSessionList_reservations_append b rest db Stats.empty
      have hnc : ∀ x ∈ L, x.session_id ≠ c.id := by
        intro x hx hxc
        obtain ⟨_, _, h3⟩ := hLp x hx
        rcases h3 with ⟨s', hs', hsid, _⟩ | ⟨e, he, he1, _⟩
        · exact hnd1 (List.mem_map.mpr ⟨s', hs', by rw [← hsid]; exact hxc⟩)
        · exact noexc_no_rows hnoexc e he he1
      have hst2 : SameTables (materializeSessionList b db Stats.empty rest).1 db :=
        materializeSessionList_sameTables b rest db Stats.empty
      have hrun2 : materializeSessionList b
          (materializeSessionList b db Stats.empty rest).1 Stats.empty
          (c :: rest) =
          ((materializeSessionList b
              (materializeSessionList b db Stats.empty rest).1 Stats.empty rest).1,
           statsAddCounts { Stats.empty with skipped_existing := Stats.empty.skipped_existing + 1 } (materializeSessionList b (materializeSessionList b db Stats.empty rest).1 Stats.empty rest).2.1,
           (materializeSessionList b
              (materializeSessionList b db Stats.empty rest).1
              Stats.empty rest).2.2) := by
        simp only [materializeSessionList]
        rw [exceptionFor_eq_of_sameTables hst2, hnoexc (dateOf c.start_at)]
        dsimp only
        rw [attempt_skips_existing (by rw [pair_append_skip hL hnc]; exact hp0)]
        dsimp only
        exact materializeSessionList_from b _ rest _
      rw [hrun2, ihr]
      dsimp only
      simp only [Prod.mk.injEq]
      refine ⟨trivial, ?_, trivial⟩
      simp [statsAddCounts, Stats.empty, Stats.mk.injEq]
      omega

theorem materialize_single_from (db : DB) (b : StandingBooking) (lo hi : Day)
    (a : Stats) :
    materialize_single_standing_booking db b lo hi a =
      ((materialize_single_standing_booking db b lo hi Stats.empty).1,
       statsAddCounts a
         (materialize_single_standing_booking db b lo hi Stats.empty).2.1,
       (materialize_single_standing_booking db b lo hi Stats.empty).2.2) := by
  unfold materialize_single_standing_booking
  cases hf : db.templates.find? fun t => t.id == b.template_id with
  | none =>
    dsimp only
    rw [statsAddCounts_empty]
  | some t =>
    dsimp only
    cases hIa : t.is_active with
    | false =>
      rw [if_pos (by rfl), if_pos (by rfl)]
      dsimp only
      rw [statsAddCounts_empty]
    | true =>
      rw [if_neg (by simp), if_neg (by simp)]
      exact materializeSessionList_from b a _ db

theorem materialize_single_twice (db : DB) (b : StandingBooking) (lo hi : Day)
    (tmpl : ClassTemplate)
    (hseat : optTruthy b.seat_id = false)
    (hfind : db.templates.find? (fun t => t.id == b.template_id) = some tmpl)
    (hnodup : ((scheduledSessionsInRange db tmpl.id (max lo b.start_date)
      (min hi b.end_date)).map fun s => s.id).Nodup)
    (hpair : ∀ s ∈ scheduledSessionsInRange db tmpl.id (max lo b.start_date)
      (min hi b.end_date), (reservationsForPair db s.id b.person_id).length ≤ 1)
    (hsess : ∀ s ∈ scheduledSessionsInRange db tmpl.id (max lo b.start_date)
      (min hi b.end_date),
      (db.sessions.filter fun x => x.id == s.id).length ≤ 1)
    (hnoexcrows : ∀ e ∈ db.standing_booking_exceptions,
      e.standing_booking_id ≠ b.id) :
    (materialize_single_standing_booking db b lo hi Stats.empty).2.2 = none ∧
    materialize_single_standing_booking
        (materialize_single_standing_booking db b lo hi Stats.empty).1
        b lo hi Stats.empty =
      ((materialize_single_standing_booking db b lo hi Stats.empty).1,
       { Stats.empty with skipped_existing := (materialize_single_standing_booking db b lo hi Stats.empty).2.1.created_reservations + (materialize_single_standing_booking db b lo hi Stats.empty).2.1.skipped_existing, skipped_no_capacity := (materialize_single_standing_booking db b lo hi Stats.empty).2.1.skipped_no_capacity },
       none) := by
  have hnoexc := exceptionFor_none_of_no_rows hnoexcrows
  cases hIa : tmpl.is_active with
  | false =>
    have h1 : materialize_single_standing_booking db b lo hi Stats.empty =
        (db, Stats.empty, none) := by
      unfold materialize_single_standing_booking
      rw [hfind]
      dsimp only
      rw [if_pos (by rw [hIa]; rfl)]
    rw [h1]
    exact ⟨rfl, by rw [h1]; rfl⟩
  | true =>
    have hred : ∀ dbx : DB, dbx.templates = db.templates →
        dbx.sessions = db.sessions →
        materialize_single_standing_booking dbx b lo hi Stats.empty =
          materializeSessionList b dbx Stats.empty
            (scheduledSessionsInRange db tmpl.id (max lo b.start_date)
              (min hi b.end_date)) := by
      intro dbx ht hs
      unfold materialize_single_standing_booking
      rw [ht, hfind]
      dsimp only
      rw [if_neg (by rw [hIa]; simp)]
      unfold scheduledSessionsInRange
      rw [hs]
    have h1 := hred db rfl rfl
    have hmain := materializeSessionList_twice b hseat
      (scheduledSessionsInRange db tmpl.id (max lo b.start_date)
        (min hi b.end_date)) db hnodup hpair hsess hnoexc
    have hst : SameTables
        (materializeSessionList b db Stats.empty
          (scheduledSessionsInRange db tmpl.id (max lo b.start_date)
            (min hi b.end_date))).1 db :=
      materializeSessionList_sameTables b _ db Stats.empty
    have h2 := hred _ hst.2.2.2.1 hst.1
    rw [h1, h2]
    exact hmain

theorem materialize_standing_bookings_singleton (db : DB) (today start : Day)
    (ww : Nat) (b : StandingBooking)
    (hb : activeBookingsInWindow db start (start + 7 * (ww : Int)) none none = [b])
    (herr : (materialize_single_standing_booking db b start
      (start + 7 * (ww : Int)) Stats.empty).2.2 = none) :
    materialize_standing_bookings db today ww (some start) none none =
      ((materialize_single_standing_booking db b start
          (start + 7 * (ww : Int)) Stats.empty).1,
       statsAddCounts { Stats.empty with processed_bookings := Stats.empty.processed_bookings + 1 } (materialize_single_standing_booking db b start (start + 7 * (ww : Int)) Stats.empty).2.1) := by
  unfold materialize_standing_bookings
  dsimp only [Option.getD]
  rw [hb]
  simp only [materializeBookingList]
  rw [materialize_single_from db b start (start + 7 * (ww : Int))
    { Stats.empty with processed_bookings := Stats.empty.processed_bookings + 1 }]
  rw [herr]

/-- C5 (amended): running the windowed materialization twice from the same
window and a clean starting state (a single active seatless booking in the
window, unique session rows and at most one reservation per (session,
person) pair, no exception rows for the booking) leaves the database of
the first run unchanged and reports `created_reservations = 0`; but the
second run's `skipped_existing` equals the FIRST run's
`created_reservations + skipped_existing`, not `created_reservations`
alone as claimed. -/
theorem C5_materialization_idempotency (db : DB) (today start : Day) (ww : Nat)
    (b : StandingBooking) (tmpl : ClassTemplate)
    (hb : activeBookingsInWindow db start (start + 7 * (ww : Int)) none none = [b])
    (hseat : optTruthy b.seat_id = false)
    (hfind : db.templates.find? (fun t => t.id == b.template_id) = some tmpl)
    (hnodup : ((scheduledSessionsInRange db tmpl.id (max start b.start_date)
      (min (start + 7 * (ww : Int)) b.end_date)).map fun s => s.id).Nodup)
    (hpair : ∀ s ∈ scheduledSessionsInRange db tmpl.id (max start b.start_date)
      (min (start + 7 * (ww : Int)) b.end_date),
      (reservationsForPair db s.id b.person_id).length ≤ 1)
    (hsess : ∀ s ∈ scheduledSessionsInRange db tmpl.id (max start b.start_date)
      (min (start + 7 * (ww : Int)) b.end_date),
      (db.sessions.filter fun x => x.id == s.id).length ≤ 1)
    (hnoexcrows : ∀ e ∈ db.standing_booking_exceptions,
      e.standing_booking_id ≠ b.id) :
    (materialize_standing_bookings
        (materialize_standing_bookings db today ww (some start) none none).1
        today ww (some start) none none).1 =
      (materialize_standing_bookings db today ww (some start) none none).1 ∧
    (materialize_standing_bookings
        (materialize_standing_bookings db today ww (some start) none none).1
        today ww (some start) none none).2.created_reservations = 0 ∧
    (materialize_standing_bookings
        (materialize_standing_bookings db today ww (some start) none none).1
        today ww (some start) none none).2.skipped_existing =
      (materialize_standing_bookings db today ww (some start) none none).2.created_reservations +
        (materialize_standing_bookings db today ww (some start) none none).2.skipped_existing := by
  obtain ⟨he1, h2run⟩ := materialize_single_twice db b start
    (start + 7 * (ww : Int)) tmpl hseat hfind hnodup hpair hsess hnoexcrows
  have hw1 := materialize_standing_bookings_singleton db today start ww b hb he1
  have hst : SameTables
      (materialize_single_standing_booking db b start
        (start + 7 * (ww : Int)) Stats.empty).1 db :=
    materialize_single_sameTables db b start (start + 7 * (ww : Int)) Stats.empty
  have hb1 : activeBookingsInWindow
      (materialize_single_standing_booking db b start
        (start + 7 * (ww : Int)) Stats.empty).1
      start (start + 7 * (ww : Int)) none none = [b] := by
    unfold activeBookingsInWindow at hb ⊢
    rw [hst.2.1]
    exact hb
  have he2 : (materialize_single_standing_booking
      (materialize_single_standing_booking db b start
        (start + 7 * (ww : Int)) Stats.empty).1
      b start (start + 7 * (ww : Int)) Stats.empty).2.2 = none := by
    rw [h2run]
  have hw2 := materialize_standing_bookings_singleton
    (materialize_single_standing_booking db b start
      (start + 7 * (ww : Int)) Stats.empty).1
    today start ww b hb1 he2
  rw [hw1]
  dsimp only
  rw [hw2, h2run]
  dsimp only
  refine ⟨rfl, ?_, ?_⟩
  · simp [statsAddCounts, Stats.empty]
  · simp [statsAddCounts, Stats.empty]

/-- Counterexample for C5's literal reading: with a reservation already in
place for the booking's person on one of the two window sessions, the first
run creates 1 reservation (and skips 1 as existing), and the second run
reports `skipped_existing = 2`, not the first run's
`created_reservations = 1`. -/
theorem C5_counterexample :
    (materialize_standing_bookings dbC5 0 2 (some 0) none none).2.created_reservations = 1 ∧
    (materialize_standing_bookings dbC5 0 2 (some 0) none none).2.skipped_existing = 1 ∧
    (materialize_standing_bookings
        (materialize_standing_bookings dbC5 0 2 (some 0) none none).1
        0 2 (some 0) none none).2.skipped_existing = 2 ∧
    ¬((materialize_standing_bookings
        (materialize_standing_bookings dbC5 0 2 (some 0) none none).1
        0 2 (some 0) none none).2.skipped_existing =
      (materialize_standing_bookings dbC5 0 2 (some 0) none none).2.created_reservations) := by
  decide

/-- Witness for the amended C5 on the concrete two-session database. -/
theorem C5_witness :
    (materialize_standing_bookings
        (materialize_standing_bookings dbC5 0 2 (some 0) none none).1
        0 2 (some 0) none none).1 =
      (materialize_standing_bookings dbC5 0 2 (some 0) none none).1 ∧
    (materialize_standing_bookings
        (materialize_standing_bookings dbC5 0 2 (some 0) none none).1
        0 2 (some 0) none none).2.created_reservations = 0 ∧
    (materialize_standing_bookings
        (materialize_standing_bookings dbC5 0 2 (some 0) none none).1
        0 2 (some 0) none none).2.skipped_existing =
      (materialize_standing_bookings dbC5 0 2 (some 0) none none).2.created_reservations +
        (materialize_standing_bookings dbC5 0 2 (some 0) none none).2.skipped_existing :=
  C5_materialization_idempotency dbC5 0 0 2 sbA tmplA (by decide) (by decide)
    (by decide) (by decide) (by decide) (by decide) (by decide)

theorem get_templates_templates_eq {db1 db2 : DB} {tid : Nat}
    (h : db1.templates = db2.templates) :
    get_templates_in_same_group db1 tid = get_templates_in_same_group db2 tid := by
  unfold get_templates_in_same_group
  rw [h]

theorem create_membership_subscription_templates {db db' : DB}
    {pid plid : Nat} {st : Minute} {status : String}
    {plan? : Option MembershipPlan} {sub : MembershipSubscription}
    (h : create_membership_subscription db pid plid st status plan? =
      .ok (db', sub)) : db'.templates = db.templates := by
  unfold create_membership_subscription at h
  cases plan? with
  | some p =>
    dsimp only at h
    simp only [Except.ok.injEq, Prod.mk.injEq] at h
    rw [← h.1]
  | none =>
    dsimp only at h
    rcases hpr : scalarOne (db.plans.filter fun p => p.id == plid) with e | plan
    · rw [hpr] at h
      exact absurd h (by simp)
    · rw [hpr] at h
      simp only [Except.ok.injEq, Prod.mk.injEq] at h
      rw [← h.1]

theorem handle_fixed_empty_group (tx : Tx) (sub : MembershipSubscription)
    (plan : MembershipPlan) (tid : Nat) (seat : Option Nat) (auto : Bool)
    (today : Day)
    (hgroup : get_templates_in_same_group tx.pending tid = .ok []) :
    ∃ stats : Stats,
      handle_fixed_timeslot_effects tx sub plan tid seat auto today =
        (tx, .ok (none, stats)) ∧ stats.standing_booking_ids = [] := by
  unfold handle_fixed_timeslot_effects create_standing_bookings_for_group
  rw [hgroup]
  dsimp only
  simp only [List.isEmpty_nil, if_true, Bool.not_true, Bool.false_and]
  exact ⟨_, rfl, rfl⟩

theorem assert_empty_ids {stats : Stats} (h : stats.standing_booking_ids = []) :
    assert_materialization_success stats =
      .error "No se pudieron crear los standing bookings para el horario fijo." := by
  unfold assert_materialization_success
  rw [h]
  rfl

/-- C1 (amended): when the renewal's fixed-slot handling yields zero
standing bookings (an empty time-slot group), the renewal fails with the
assertion error and IS fully rolled back: the committed state is exactly
the pre-call committed state and the pending state is reset to it.  (The
general claim is refuted separately: when session generation commits
mid-transaction before the assertion fails, the subscription, payment,
standing bookings and generated sessions survive the rollback.) -/
theorem C1_renewal_rollback (tx : Tx) (now : Minute) (today : Day)
    (member_id plan_id tid : Nat) (seat_id0 : Option Nat)
    (start_at? : Option Minute) (pm : String) (pa : Option Int) (ps : String)
    (htid : tid ≠ 0)
    (hgroup : get_templates_in_same_group tx.pending tid = .ok []) :
    exceptIsError (renew_subscription_with_standing_booking tx now today member_id
      plan_id (some tid) seat_id0 start_at? pm pa ps true).2 = true ∧
    (renew_subscription_with_standing_booking tx now today member_id plan_id
      (some tid) seat_id0 start_at? pm pa ps true).1.committed = tx.committed ∧
    (renew_subscription_with_standing_booking tx now today member_id plan_id
      (some tid) seat_id0 start_at? pm pa ps true).1.pending = tx.committed := by
  unfold renew_subscription_with_standing_booking
  dsimp only
  rcases hp : scalarOne (tx.pending.plans.filter fun p => p.id == plan_id) with
    e | plan
  · rw [hp]
    exact ⟨rfl, rfl, rfl⟩
  · rw [hp]
    dsimp only
    have hopt : optTruthy (some tid) = true := by
      simp [optTruthy, htid]
    rw [hopt]
    simp only [Bool.not_true, Bool.false_and]
    rw [if_neg Bool.false_ne_true]
    dsimp only
    simp only [Option.isSome_some, Bool.or_true]
    split
    · exact ⟨rfl, rfl, rfl⟩
    · rename_i db3 sub hc
      simp only [create_payment]
      simp only [if_true]
      have htid0 : (tid == 0) = false := by
        simp only [beq_eq_false_iff_ne, ne_eq]
        exact htid
      rw [htid0]
      simp only [Bool.false_eq_true, if_false]
      have htpl3 : db3.templates = tx.pending.templates :=
        (create_membership_subscription_templates hc).trans (by split <;> rfl)
      obtain ⟨stats, hhf, hids⟩ := handle_fixed_empty_group
        { tx with pending :=
          { db3 with
            payments := db3.payments ++
              [⟨db3.next_id, member_id, some sub.id,
                resolve_payment_amount plan pa, pm, ps⟩],
            next_id := db3.next_id + 1 } }
        sub plan tid seat_id0 true today
        ((get_templates_templates_eq htpl3).trans hgroup)
      rw [hhf]
      dsimp only
      rw [assert_empty_ids hids]
      exact ⟨rfl, rfl, rfl⟩

/-- Counterexample to C1's literal reading: a seat-conflict renewal on
`dbC1` fails its post-materialization assertion AFTER the session
expander has committed mid-transaction, so the new subscription, the
payment, the standing booking and the generated session all survive in
the committed state (an orphaned payment row exists for a failed
renewal). -/
theorem C1_counterexample :
    exceptIsError (renew_subscription_with_standing_booking (Tx.start dbC1)
      (combine 0 600) 0 1 3 (some 1) (some 5) none "cash" none "paid" true).2 = true ∧
    (renew_subscription_with_standing_booking (Tx.start dbC1)
      (combine 0 600) 0 1 3 (some 1) (some 5) none "cash" none "paid" true).1.committed.payments.length = 1 ∧
    (renew_subscription_with_standing_booking (Tx.start dbC1)
      (combine 0 600) 0 1 3 (some 1) (some 5) none "cash" none "paid" true).1.committed.subscriptions.length = 1 ∧
    (renew_subscription_with_standing_booking (Tx.start dbC1)
      (combine 0 600) 0 1 3 (some 1) (some 5) none "cash" none "paid" true).1.committed.standing_bookings.length = 1 ∧
    (renew_subscription_with_standing_booking (Tx.start dbC1)
      (combine 0 600) 0 1 3 (some 1) (some 5) none "cash" none "paid" true).1.committed.sessions.length = 2 ∧
    dbC1.payments.length = 0 ∧
    ¬((renew_subscription_with_standing_booking (Tx.start dbC1)
      (combine 0 600) 0 1 3 (some 1) (some 5) none "cash" none "paid" true).1.committed = dbC1) := by
  decide

/-- Witness for the amended C1: a renewal against a template id with an
empty time-slot group fails and leaves both the committed and pending
states at the pre-call committed state. -/
theorem C1_witness :
    exceptIsError (renew_subscription_with_standing_booking (Tx.start dbC1)
      (combine 0 600) 0 1 3 (some 99) (some 5) none "cash" none "paid" true).2 = true ∧
    (renew_subscription_with_standing_booking (Tx.start dbC1)
      (combine 0 600) 0 1 3 (some 99) (some 5) none "cash" none "paid" true).1.committed = (Tx.start dbC1).committed ∧
    (renew_subscription_with_standing_booking (Tx.start dbC1)
      (combine 0 600) 0 1 3 (some 99) (some 5) none "cash" none "paid" true).1.pending = (Tx.start dbC1).committed :=
  C1_renewal_rollback (Tx.start dbC1) (combine 0 600) 0 1 3 99 (some 5) none
    "cash" none "paid" (by decide) (by decide)

theorem C10_witness :
    create_reservation_if_possible dbC10 sbA 2 Stats.empty "standing" =
      .ok (dbC10, { Stats.empty with skipped_existing := 1 }) :=
  C10_canceled_reservation_blocks dbC10 sbA 2 Stats.empty "standing" canceledResv
    (by decide)

end Fitpilot
